import Mathlib

/-!
# ch32_fan_thermostat: the interactive control core

A shallow embedding of `src/src/main.c`: the menu state machine
(`handleEncoder`, `updateMenu`, the button switch of `main`), the debouncer
(`checkButton`), the periodic sensor / backlight check of `main`, and the
settings store (`FlashOptionData`, `SaveSettings`, `LoadSettings`).

Conventions.

* C integers are mathematical integers (`Int`); every conversion to a fixed
  width is written out with `u8`, `u16`, `u32`, `i8`, `i32`.
* Global and `static` variables are the fields of `State`; every function of
  the source becomes a function from `State` to `State` (and a result).
* Values read from hardware (the SysTick counter, the encoder counter, the
  button pin, the raw sensor word) are arguments of the functions that read
  them.
* Text sent to the LCD is not part of the state: the display is write-only
  and nothing in `main.c` reads it back.
-/

namespace FanThermostat

/-! ## Machine integers -/

/-- Conversion to `uint8_t`. -/
def u8 (x : Int) : Int := x % 256

/-- Conversion to `uint16_t`. -/
def u16 (x : Int) : Int := x % 65536

/-- Conversion to `uint32_t` (also: `unsigned int` on this 32-bit target). -/
def u32 (x : Int) : Int := x % 4294967296

/-- Conversion to `int8_t` (wrap modulo 256, as GCC defines it). -/
def i8 (x : Int) : Int := (x + 128) % 256 - 128

/-- Conversion to `int` / `int32_t` (wrap modulo 2^32). -/
def i32 (x : Int) : Int := (x + 2147483648) % 4294967296 - 2147483648

/-! ## Constants of `main.c` -/

/-- `#define TICK_NS 120`. -/
def TICK_NS : Int := 120

/-- `#define PULSES_PER_DETENT 4`. -/
def PULSES_PER_DETENT : Int := 4

/-- `#define DEBOUNCE_TIME 50`, in milliseconds. -/
def DEBOUNCE_TIME : Int := 50

/-- `typedef enum { DISPLAYING_DATA, IN_MENU, EDITING_VALUE } MenuState`. -/
inductive MenuState where
  | DISPLAYING_DATA
  | IN_MENU
  | EDITING_VALUE
  deriving DecidableEq, Repr

/-- Enumerator `SET_TEMP1` of `MenuItem`. -/
def SET_TEMP1 : Int := 0

/-- Enumerator `SET_TEMP2` of `MenuItem`. -/
def SET_TEMP2 : Int := 1

/-- Enumerator `SET_UNITS` of `MenuItem`. -/
def SET_UNITS : Int := 2

/-- Enumerator `EXIT` of `MenuItem`. -/
def EXIT : Int := 3

/-- Enumerator `MENU_ITEMS_COUNT` of `MenuItem`. -/
def MENU_ITEMS_COUNT : Int := 4

/-- `const int MENU_DISPLAY_LINES = 4`. -/
def MENU_DISPLAY_LINES : Int := 4

/-! ## The flash controller and the option bytes

`FlashOptionData` talks to the flash controller through the registers
`FLASH->KEYR`, `FLASH->OBKEYR`, `FLASH->CTLR`, `FLASH->STATR` and through
half-word stores at `OB_BASE`. The register block and the macros naming its
bits come from the vendor header `ch32v003fun.h`, which is not among the
sources; the controller itself is hardware. -/

/-- Modelled from the spec: the bits of `FLASH->CTLR` that `FlashOptionData`
touches, named after the `CR_*_Set` / `CR_*_Reset` macros of `ch32v003fun.h`
(the header with their numeric values is not among the sources). -/
inductive CtlrBit where
  | LOCK
  | OPTPG
  | OPTER
  | STRT
  deriving DecidableEq, Repr

/-- Modelled from the spec: first unlock key, macro `FLASH_KEY1` of
`ch32v003fun.h` (not among the sources). Only its being different from
`FLASH_KEY2` matters below. -/
def FLASH_KEY1 : Int := 0x45670123

/-- Modelled from the spec: second unlock key, macro `FLASH_KEY2` of
`ch32v003fun.h` (not among the sources). -/
def FLASH_KEY2 : Int := 0xCDEF89AB

/-- One access of `FlashOptionData` to the flash controller, in the order of
the source statements. -/
inductive FlashOp where
  | writeKEYR (k : Int)
  | writeOBKEYR (k : Int)
  | setCTLR (b : CtlrBit)
  | resetCTLR (b : CtlrBit)
  | waitBusy
  | writeOB (i : Nat) (v : Int)
  deriving DecidableEq, Repr

/-- Number of half-words of the option-byte region: `RDPR`, `USER`, `Data0`,
`Data1`, `WRPR0`, `WRPR1` (`sizeof( hold ) / sizeof( hold[0] )` in
`FlashOptionData`). -/
def OB_HALFWORDS : Nat := 6

/-- Value of an erased half-word. -/
def ERASED : Int := 0xFFFF

/-- Modelled from the spec: the flash controller and the option bytes
(hardware behind the registers of `ch32v003fun.h`, not among the sources).
`ob i` is the half-word at `OB_BASE + 2 * i`; the flags are bits of
`FLASH->CTLR`; `keyrSeq` / `obkeyrSeq` remember that the first key was the
last value written to `KEYR` / `OBKEYR`; `busy` is the number of further
reads of `FLASH->STATR` that report `FLASH_BUSY`, `latency` its value right
after an erase or a program; `log` records the accesses in program order. -/
structure Flash where
  ob : Nat → Int
  lock : Bool
  obwre : Bool
  opter : Bool
  optpg : Bool
  keyrSeq : Bool
  obkeyrSeq : Bool
  busy : Nat
  latency : Nat
  log : List FlashOp

/-- Modelled from the spec: `FLASH->KEYR = k`. The key sequence
`FLASH_KEY1`, `FLASH_KEY2` clears `LOCK` ("the region must be unlocked"). -/
def Flash.writeKEYR (f : Flash) (k : Int) : Flash :=
  let f := { f with log := f.log ++ [FlashOp.writeKEYR k] }
  if k = FLASH_KEY1 then { f with keyrSeq := true }
  else if k = FLASH_KEY2 ∧ f.keyrSeq = true then { f with lock := false, keyrSeq := false }
  else { f with keyrSeq := false }

/-- Modelled from the spec: `FLASH->OBKEYR = k`. The key sequence
`FLASH_KEY1`, `FLASH_KEY2` enables writes to the option bytes. -/
def Flash.writeOBKEYR (f : Flash) (k : Int) : Flash :=
  let f := { f with log := f.log ++ [FlashOp.writeOBKEYR k] }
  if k = FLASH_KEY1 then { f with obkeyrSeq := true }
  else if k = FLASH_KEY2 ∧ f.obkeyrSeq = true then { f with obwre := true, obkeyrSeq := false }
  else { f with obkeyrSeq := false }

/-- Modelled from the spec: `FLASH->CTLR |= CR_b_Set`. The register is
write-protected while `LOCK` is set. Setting `STRT` with `OPTER` selected and
the option bytes unlocked erases the whole option-byte block ("erasing clears
ALL option bytes"). -/
def Flash.ctlrSet (f : Flash) (b : CtlrBit) : Flash :=
  let f := { f with log := f.log ++ [FlashOp.setCTLR b] }
  if f.lock = true then f
  else
    match b with
    | CtlrBit.LOCK => { f with lock := true }
    | CtlrBit.OPTPG => { f with optpg := true }
    | CtlrBit.OPTER => { f with opter := true }
    | CtlrBit.STRT =>
      if f.opter = true ∧ f.obwre = true then
        { f with ob := fun _ => ERASED, busy := f.latency }
      else f

/-- Modelled from the spec: `FLASH->CTLR &= CR_b_Reset`. `LOCK` is cleared by
the key sequence only, never by a write to the register. -/
def Flash.ctlrReset (f : Flash) (b : CtlrBit) : Flash :=
  let f := { f with log := f.log ++ [FlashOp.resetCTLR b] }
  if f.lock = true then f
  else
    match b with
    | CtlrBit.LOCK => f
    | CtlrBit.OPTPG => { f with optpg := false }
    | CtlrBit.OPTER => { f with opter := false }
    | CtlrBit.STRT => f

/-- Modelled from the spec: the half-word store `ob16p[i] = v`. It programs
the half-word only while `OPTPG` is set, the controller and the option bytes
are unlocked, and the half-word is erased (erase-before-write). -/
def Flash.writeOB (f : Flash) (i : Nat) (v : Int) : Flash :=
  let f := { f with log := f.log ++ [FlashOp.writeOB i v] }
  if f.optpg = true ∧ f.lock = false ∧ f.obwre = true ∧ f.ob i = ERASED then
    { f with ob := fun j => if j = i then u16 v else f.ob j, busy := f.latency }
  else f

/-- The polls of `while ( FLASH->STATR & FLASH_BUSY );`: one iteration per
read that still reports busy; returns the remaining busy count, zero. -/
def spinWhileBusy : Nat → Nat
  | 0 => 0
  | n + 1 => spinWhileBusy n

/-- The statement `while ( FLASH->STATR & FLASH_BUSY );`. -/
def Flash.waitBusy (f : Flash) : Flash :=
  { f with busy := spinWhileBusy f.busy, log := f.log ++ [FlashOp.waitBusy] }

/-- The 32-bit read `ob32p[k]` (little endian: half-word `2k` is the low
half). -/
def ob32 (f : Flash) (k : Nat) : Int :=
  u16 (f.ob (2 * k)) + 65536 * u16 (f.ob (2 * k + 1))

/-- The read `hold[i]` of the array `volatile uint16_t hold[6]` that was
filled through `hold32p[0]`, `hold32p[1]`, `hold32p[2]`. -/
def holdAt (w0 w1 w2 : Int) (i : Nat) : Int :=
  match i with
  | 0 => u16 w0
  | 1 => u16 (w0 / 65536)
  | 2 => u16 w1
  | 3 => u16 (w1 / 65536)
  | 4 => u16 w2
  | 5 => u16 (w2 / 65536)
  | _ => 0

/-- The loop `for ( int i = 0; i < 6; i++ ) { ob16p[i] = hold[i]; while busy; }`
of `FlashOptionData`: `n` iterations remain, the next index is `i`. -/
def writeBackLoop (hold : Nat → Int) : Nat → Nat → Flash → Flash
  | 0, _, f => f
  | n + 1, i, f => writeBackLoop hold n (i + 1) ((f.writeOB i (hold i)).waitBusy)

/-- `void FlashOptionData( uint8_t data0, uint8_t data1 )`. -/
def FlashOptionData (f : Flash) (data0 data1 : Int) : Flash :=
  let data0 := u8 data0
  let data1 := u8 data1
  -- Save current Option bytes
  let w0 := ob32 f 0
  let w1 := u32 (data0 + data1 * 65536)
  let w2 := ob32 f 2
  -- Unlock Flash and Option bytes
  let f := f.writeKEYR FLASH_KEY1
  let f := f.writeKEYR FLASH_KEY2
  let f := f.writeOBKEYR FLASH_KEY1
  let f := f.writeOBKEYR FLASH_KEY2
  -- Erase Option bytes
  let f := f.ctlrSet CtlrBit.OPTER
  let f := f.ctlrSet CtlrBit.STRT
  let f := f.waitBusy
  let f := f.ctlrReset CtlrBit.OPTER
  -- Write back values
  let f := f.ctlrSet CtlrBit.OPTPG
  let f := writeBackLoop (holdAt w0 w1 w2) OB_HALFWORDS 0 f
  let f := f.ctlrReset CtlrBit.OPTPG
  f.ctlrSet CtlrBit.LOCK

/-- `typedef struct { uint8_t temperature1; uint8_t temperature2; ... } Settings`
(the 4-bit `reserved` field is never read or written). -/
structure Settings where
  temperature1 : Int
  temperature2 : Int
  deriving DecidableEq, Repr

/-- `void SaveSettings( Settings *settings )`; `& 0xFF` is written `% 256`. -/
def SaveSettings (f : Flash) (settings : Settings) : Flash :=
  let data0 := u8 settings.temperature1
  let data1 := u8 (settings.temperature2 % 256)
  FlashOptionData f data0 data1

/-- `void LoadSettings( Settings *settings )`: `OB->Data0` and `OB->Data1` are
the half-words 2 and 3 of the region (the layout `RDPR`, `USER`, `Data0`,
`Data1`, `WRPR0`, `WRPR1` that the comments of `FlashOptionData` name);
`& 0xFF` is written `% 256`. -/
def LoadSettings (f : Flash) : Settings :=
  { temperature1 := u8 (u16 (f.ob 2))
    temperature2 := u8 (u16 (f.ob 3) % 256) }

/-! ## The variables of `main.c` -/

/-- The global variables of `main.c`, the `static` locals of `handleEncoder`
(`lastPosition`) and `checkButton` (`lastDebounceTime`, `lastButtonState`,
`buttonState`), the local `settings` of `main`, and the flash controller.
`units0` is `units[0]`, the only element of `units` that is ever written.
`selectedMenuItem` holds the numeric value of the enumeration (an
`unsigned int` for GCC, the enumeration having no negative enumerator). -/
structure State where
  currentState : MenuState
  selectedMenuItem : Int
  menuOffset : Int
  fahrenheit : Bool
  units0 : Char
  counter : Int
  temperature1 : Int
  temperature2 : Int
  sensor1Value : Int
  last_sensor_check : Int
  lastInteractionTime : Int
  backlight_state : Bool
  oldPos : Int
  initial_count : Int
  lastPosition : Int
  lastDebounceTime : Int
  lastButtonState : Int
  buttonState : Int
  settings : Settings
  flash : Flash

/-- `uint32_t get_Time( void )`, as a function of the value read from
`SysTick->CNT`. The product is computed in `uint32_t`; the division by `1e6`
is a division of doubles whose result is converted back to `uint32_t`, which
is the integer quotient (a 32-bit value and `1e6` are exact doubles, and the
rounded quotient never crosses an integer). -/
def get_Time (cnt : Int) : Int :=
  let currTick := u32 cnt
  u32 (currTick * TICK_NS) / 1000000

/-- `void updateMenu( uint8_t lcd_address )`: the effect on the variables (the
calls to the LCD driver write to the display only). The comparisons of
`selectedMenuItem` with an `int` are unsigned comparisons. -/
def updateMenu (s : State) : State :=
  match s.currentState with
  | MenuState.IN_MENU =>
    -- Adjust menuOffset if selected item would be off screen
    if u32 s.selectedMenuItem < u32 s.menuOffset then
      { s with menuOffset := i32 (u32 s.selectedMenuItem) }
    else if u32 s.selectedMenuItem ≥ u32 (s.menuOffset + MENU_DISPLAY_LINES) then
      { s with menuOffset := i32 (u32 (s.selectedMenuItem - MENU_DISPLAY_LINES + 1)) }
    else s
  | MenuState.EDITING_VALUE =>
    if s.selectedMenuItem = EXIT then { s with currentState := MenuState.DISPLAYING_DATA }
    else s
  | MenuState.DISPLAYING_DATA => s

/-- `void handleEncoder( uint8_t lcd_address, int32_t position )`; `tick` is
the value of `SysTick->CNT` read by its call of `get_Time`. -/
def handleEncoder (s : State) (position : Int) (tick : Int) : State :=
  let s := { s with lastInteractionTime := get_Time tick }
  if position ≠ s.lastPosition then
    let delta : Int := if position > s.lastPosition then 1 else -1
    let s := { s with lastPosition := position }
    match s.currentState with
    | MenuState.DISPLAYING_DATA =>
      updateMenu { s with currentState := MenuState.IN_MENU
                          selectedMenuItem := SET_TEMP1
                          menuOffset := 0 }
    | MenuState.IN_MENU =>
      let newItem := i8 (u32 (s.selectedMenuItem + delta))
      if newItem ≥ 0 ∧ newItem < MENU_ITEMS_COUNT then
        updateMenu { s with selectedMenuItem := newItem }
      else s
    | MenuState.EDITING_VALUE =>
      let s :=
        if s.selectedMenuItem = SET_TEMP1 then
          if delta > 0 ∧ s.temperature1 < 255 then { s with temperature1 := s.temperature1 + 1 }
          else if delta < 0 ∧ s.temperature1 > 0 then { s with temperature1 := s.temperature1 - 1 }
          else s
        else if s.selectedMenuItem = SET_TEMP2 then
          if delta > 0 ∧ s.temperature2 < 255 then { s with temperature2 := s.temperature2 + 1 }
          else if delta < 0 ∧ s.temperature2 > 0 then { s with temperature2 := s.temperature2 - 1 }
          else s
        else if s.selectedMenuItem = SET_UNITS then
          if delta > 0 then
            let fahrenheit := !s.fahrenheit
            { s with fahrenheit := fahrenheit
                     units0 := if fahrenheit = true then 'F' else 'C' }
          else s
        else s
      updateMenu s
  else s

/-- `uint8_t checkButton( void )`: the returned value and the new variables.
`pin` tells whether `GPIOC->INDR & BUTTON_PIN` is non-zero, `tick` is the
value of `SysTick->CNT` read by its call of `get_Time`. -/
def checkButton (s : State) (pin : Bool) (tick : Int) : Int × State :=
  let reading : Int := if pin = true then 1 else 0
  let currentTime := get_Time tick
  let s := if reading ≠ s.lastButtonState then { s with lastDebounceTime := currentTime } else s
  let s := { s with lastButtonState := reading }
  if u32 (currentTime - s.lastDebounceTime) > DEBOUNCE_TIME then
    if reading ≠ s.buttonState then
      let s := { s with buttonState := reading }
      if s.buttonState = 0 then
        -- Button pressed
        let s := { s with lastInteractionTime := currentTime }
        -- If backlight is off, turn it on and consume press
        if s.backlight_state = false then
          (0, { s with backlight_state := true })
        else (1, s)
      else (0, s)
    else (0, s)
  else (0, s)

/-- `void readSensors()`, as a function of the word `raw1` returned by
`read_single_sensor`. The Fahrenheit branch computes `c * 9.0 / 5.0 + 32` in
doubles and converts to `uint16_t`; for `c` below 2^13 that is
`c * 9 / 5 + 32` with integer division. -/
def readSensors (s : State) (raw1 : Int) : State :=
  let raw1 := u16 raw1
  if raw1 / 4 % 2 = 0 then
    let c := u16 (raw1 / 8 / 4)
    if s.fahrenheit = true then { s with sensor1Value := u16 (c * 9 / 5 + 32) }
    else { s with sensor1Value := c }
  else { s with sensor1Value := 0 }

/-! ## `main`: start-up and the control loop -/

/-- The variables as their initialisers in `main.c` leave them, before `main`
runs, with the flash controller `f`. The local `settings` of `main` is not
initialised; it is overwritten by `LoadSettings` before its first use. -/
def initialState (f : Flash) : State :=
  { currentState := MenuState.DISPLAYING_DATA
    selectedMenuItem := SET_TEMP1
    menuOffset := 0
    fahrenheit := true
    units0 := 'F'
    counter := 0
    temperature1 := 80
    temperature2 := 90
    sensor1Value := 0
    last_sensor_check := 0
    lastInteractionTime := 0
    backlight_state := true
    oldPos := 0
    initial_count := 0
    lastPosition := 0
    lastDebounceTime := 0
    lastButtonState := 1
    buttonState := 1
    settings := { temperature1 := 0, temperature2 := 0 }
    flash := f }

/-- The part of `main` before `while ( 1 )`: `tick` is the value of
`SysTick->CNT` read by `get_Time`; `timer2_encoder_init` writes `0x8fff` to
`TIM2->CNT` and reads it back into `initial_count` before the timer is
enabled. -/
def mainInit (f : Flash) (tick : Int) : State :=
  let s := initialState f
  let s := { s with backlight_state := true }
  let s := { s with lastInteractionTime := get_Time tick }
  let s := { s with initial_count := u16 0x8fff }
  -- Load settings from EEPROM
  let s := { s with settings := LoadSettings s.flash }
  -- Update global variables with loaded settings
  let s := { s with temperature1 := s.settings.temperature1
                    temperature2 := s.settings.temperature2 }
  -- Initial display update
  updateMenu s

/-- What one iteration of `while ( 1 )` reads from the hardware: the encoder
counter `TIM2->CNT`, the level of the button pin, the word returned by
`read_single_sensor`, and the values of `SysTick->CNT` seen by the calls of
`get_Time` in source order (line 576, `handleEncoder`, `checkButton`, line
584, line 614, line 631). -/
structure LoopInput where
  count : Int
  pin : Bool
  raw1 : Int
  tickEncoder : Int
  tickHandle : Int
  tickCheck : Int
  tickButton : Int
  tickNow : Int
  tickBlank : Int

/-- The "Handle encoder" block of the loop (lines 570-579). -/
def encoderStep (s : State) (inp : LoopInput) : State :=
  let current_count := u16 inp.count
  let position := i32 (current_count - s.initial_count)
  let current_pos := Int.tdiv position PULSES_PER_DETENT
  if s.oldPos ≠ current_pos then
    let s := { s with lastInteractionTime := get_Time inp.tickEncoder }
    let s := handleEncoder s current_pos inp.tickHandle
    { s with oldPos := current_pos }
  else s

/-- The body of `if ( checkButton() )` (lines 584-610): what a forwarded
button press does. `tick` is the value of `SysTick->CNT` read by `get_Time`. -/
def buttonAction (s : State) (tick : Int) : State :=
  let s := { s with lastInteractionTime := get_Time tick }
  let s :=
    match s.currentState with
    | MenuState.IN_MENU =>
      if s.selectedMenuItem = EXIT then
        -- Save settings before exiting menu
        let settings : Settings :=
          { temperature1 := u8 s.temperature1, temperature2 := u8 s.temperature2 }
        { s with settings := settings
                 flash := SaveSettings s.flash settings
                 currentState := MenuState.DISPLAYING_DATA }
      else { s with currentState := MenuState.EDITING_VALUE }
    | MenuState.EDITING_VALUE => { s with currentState := MenuState.IN_MENU }
    | MenuState.DISPLAYING_DATA =>
      { s with currentState := MenuState.IN_MENU
               selectedMenuItem := SET_TEMP1
               menuOffset := 0 }
  updateMenu s

/-- The "Handle button" block of the loop (lines 582-611). -/
def buttonStep (s : State) (inp : LoopInput) : State :=
  let r := checkButton s inp.pin inp.tickCheck
  if r.1 ≠ 0 then buttonAction r.2 inp.tickButton else r.2

/-- The periodic block of the loop (lines 614-641): sensor read-out and
backlight timer. -/
def periodicCheck (s : State) (inp : LoopInput) : State :=
  let current_time := get_Time inp.tickNow
  if u32 (current_time - s.last_sensor_check) > 1000 then
    let s := readSensors s inp.raw1
    let s := { s with counter := u8 (s.counter + 1) }
    let s :=
      if s.counter > 10 then
        if u32 (current_time - s.lastInteractionTime) > 10000 then
          let s := { s with backlight_state := false, counter := 0 }
          if s.currentState = MenuState.DISPLAYING_DATA then s
          else { s with lastInteractionTime := get_Time inp.tickBlank
                        backlight_state := true }
        else s
      else s
    let s := { s with last_sensor_check := current_time }
    if s.backlight_state = true then updateMenu s else s
  else s

/-- One iteration of `while ( 1 )` in `main`. -/
def loopIteration (s : State) (inp : LoopInput) : State :=
  periodicCheck (buttonStep (encoderStep s inp) inp) inp

/-! ## User events

The two ways the user acts on the menu: a call of `handleEncoder` (made by
the loop when the detent position changed) and a forwarded button press (the
body of `if ( checkButton() )`). Both end with the redraw of `updateMenu`. -/

/-- An encoder call `handleEncoder( lcd_address, position )` or a forwarded
button press, each with the value of `SysTick->CNT` it reads. -/
inductive UserEvent where
  | encoder (position : Int) (tick : Int)
  | button (tick : Int)
  deriving DecidableEq, Repr

/-- The effect of one user event. -/
def applyEvent (s : State) : UserEvent → State
  | UserEvent.encoder position tick => handleEncoder s position tick
  | UserEvent.button tick => buttonAction s tick

/-- The effect of a sequence of user events, first event first. -/
def runEvents (s : State) (es : List UserEvent) : State :=
  es.foldl applyEvent s

/-- The effect of a sequence of loop iterations, first iteration first. -/
def runLoop (s : State) (inps : List LoopInput) : State :=
  inps.foldl loopIteration s

/-- The user events of a sequence of encoder calls, given as pairs of the
position passed to `handleEncoder` and the value of `SysTick->CNT`. -/
def encoderEvents (ps : List (Int × Int)) : List UserEvent :=
  ps.map (fun pt => UserEvent.encoder pt.1 pt.2)

/-- Number of positive deltas in a sequence of encoder calls: the calls whose
position is greater than the position of the call before (`last` for the
first call). -/
def positiveDeltas (last : Int) : List (Int × Int) → Nat
  | [] => 0
  | pt :: rest => (if pt.1 > last then 1 else 0) + positiveDeltas pt.1 rest

/-! ## Auxiliary notions for the statements -/

/-- Byte `b` of the option-byte region, the byte at `OB_BASE + b` (little
endian: the even byte is the low byte of half-word `b / 2`). -/
def obByte (f : Flash) (b : Nat) : Int :=
  if b % 2 = 0 then u16 (f.ob (b / 2)) % 256 else u16 (f.ob (b / 2)) / 256

/-- The accesses made by `writeBackLoop hold n i`, in program order. -/
def loopLog (hold : Nat → Int) : Nat → Nat → List FlashOp
  | 0, _ => []
  | n + 1, i => FlashOp.writeOB i (hold i) :: FlashOp.waitBusy :: loopLog hold n (i + 1)

/-- The accesses made by `FlashOptionData`, in program order, when `hold` is
the content of its array `hold`. -/
def saveLog (hold : Nat → Int) : List FlashOp :=
  [FlashOp.writeKEYR FLASH_KEY1, FlashOp.writeKEYR FLASH_KEY2,
   FlashOp.writeOBKEYR FLASH_KEY1, FlashOp.writeOBKEYR FLASH_KEY2,
   FlashOp.setCTLR CtlrBit.OPTER, FlashOp.setCTLR CtlrBit.STRT, FlashOp.waitBusy,
   FlashOp.resetCTLR CtlrBit.OPTER, FlashOp.setCTLR CtlrBit.OPTPG]
  ++ loopLog hold OB_HALFWORDS 0
  ++ [FlashOp.resetCTLR CtlrBit.OPTPG, FlashOp.setCTLR CtlrBit.LOCK]

/-- The inductive menu invariant: the selection is one of the four items and
the window starts at the first item. -/
def MenuInv (s : State) : Prop :=
  0 ≤ s.selectedMenuItem ∧ s.selectedMenuItem ≤ 3 ∧ s.menuOffset = 0

/-- Both thresholds are bytes. -/
def TempInv (s : State) : Prop :=
  0 ≤ s.temperature1 ∧ s.temperature1 ≤ 255 ∧ 0 ≤ s.temperature2 ∧ s.temperature2 ≤ 255

/-- A flash controller after reset (locked, idle) with thresholds 80 and 90
stored in `Data0` and `Data1`; used to instantiate the theorems. -/
def sampleFlash : Flash :=
  { ob := fun i =>
      match i with
      | 0 => 0x5AA5
      | 1 => 0x08F7
      | 2 => 0xAF50
      | 3 => 0xA55A
      | 4 => 0x00FF
      | 5 => 0x00FF
      | _ => ERASED
    lock := true
    obwre := false
    opter := false
    optpg := false
    keyrSeq := false
    obkeyrSeq := false
    busy := 0
    latency := 3
    log := [] }

/-- A loop iteration in which the user does nothing: the encoder counter is
at its initial value, the button is released (pin high), and every read of
`SysTick->CNT` returns `tick`. -/
def idleInput (tick : Int) : LoopInput :=
  { count := 0x8fff
    pin := true
    raw1 := 0
    tickEncoder := tick
    tickHandle := tick
    tickCheck := tick
    tickButton := tick
    tickNow := tick
    tickBlank := tick }

/-- A sequence of user events used to instantiate the theorems: four clicks
clockwise, one back, a press, one more click. -/
def sampleEvents : List UserEvent :=
  [UserEvent.encoder 1 10, UserEvent.encoder 2 20, UserEvent.encoder 3 30,
   UserEvent.encoder 4 40, UserEvent.encoder 3 50, UserEvent.button 60,
   UserEvent.encoder 4 70]

/-- A state used to instantiate the theorems: editing Temp1, with
temperature1 at its upper bound and temperature2 at its lower bound. -/
def sampleEditing : State :=
  { mainInit sampleFlash 0 with
    currentState := MenuState.EDITING_VALUE
    selectedMenuItem := SET_TEMP1
    temperature1 := 255
    temperature2 := 0 }

/-- A state used to instantiate the theorems: editing Units, in Fahrenheit. -/
def sampleUnits : State :=
  { mainInit sampleFlash 0 with
    currentState := MenuState.EDITING_VALUE
    selectedMenuItem := SET_UNITS }

/-- Encoder calls used to instantiate the theorems: positions 1, 2, 1, 5,
that is three positive deltas and one negative. -/
def samplePositions : List (Int × Int) :=
  [(1, 10), (2, 20), (1, 30), (5, 40)]

/-- A state used to instantiate the theorems: browsing the menu with Exit
selected, thresholds 81 and 200. -/
def sampleOnExit : State :=
  { mainInit sampleFlash 0 with
    currentState := MenuState.IN_MENU
    selectedMenuItem := EXIT
    temperature1 := 81
    temperature2 := 200 }

/-- A state used to instantiate the theorems: Displaying, with a stale
selection and a stale menuOffset left over. -/
def sampleStale : State :=
  { mainInit sampleFlash 0 with selectedMenuItem := EXIT, menuOffset := 2 }

/-- A state used to instantiate the theorems: Displaying with the backlight
off, the button seen low (pressed) since time 0 but not yet accepted. -/
def sampleDark : State :=
  { mainInit sampleFlash 0 with
    backlight_state := false
    lastButtonState := 0
    lastDebounceTime := 0 }

/-- A loop iteration in which the button pin is low and every read of
`SysTick->CNT` returns `tick`; the encoder has not moved. -/
def pressInput (tick : Int) : LoopInput :=
  { idleInput tick with pin := false }

/-- A state used to instantiate the theorems: Displaying with the backlight
on, last interaction at 3000 ms, last periodic check at 2000 ms, and ten
periodic checks counted since the counter was last reset. -/
def sampleIdle : State :=
  { mainInit sampleFlash 25000000 with
    last_sensor_check := 2000
    counter := 10 }

/-- The detent position `current_pos` that the loop computes from the value
`count` read from `TIM2->CNT` (lines 570-572). -/
def detentPosition (initial_count count : Int) : Int :=
  Int.tdiv (i32 (u16 count - initial_count)) PULSES_PER_DETENT

/-- A loop iteration in which the encoder has been turned one detent
clockwise since start-up, the button is released, and every read of
`SysTick->CNT` returns `tick`. -/
def turnedInput (tick : Int) : LoopInput :=
  { idleInput tick with count := 0x9003 }

/-- The values returned by consecutive calls of `checkButton`, one per pair of
pin level and `SysTick->CNT` value, and the variables after the last call. -/
def checkButtonRun (s : State) : List (Bool × Int) → List Int × State
  | [] => ([], s)
  | pt :: rest =>
    let r := checkButton s pt.1 pt.2
    let rr := checkButtonRun r.2 rest
    (r.1 :: rr.1, rr.2)

/-- No call of the run recognises a release: no call finds the stable state
pressed (0) and leaves it different from 0. -/
def noRelease (s : State) : List (Bool × Int) → Prop
  | [] => True
  | pt :: rest =>
    ¬ (s.buttonState = 0 ∧ (checkButton s pt.1 pt.2).2.buttonState ≠ 0) ∧
    noRelease (checkButton s pt.1 pt.2).2 rest

/-- A flash access is a half-word store to the option bytes. -/
def FlashOp.isWriteOB : FlashOp → Bool
  | FlashOp.writeOB _ _ => true
  | _ => false

/-- A state used to instantiate the theorems: the state after start-up and one
loop iteration at 4000 ms in which the encoder was turned one detent, so the
menu is in InMenu with the backlight on and one periodic check counted. -/
def sampleBrowsing : State :=
  loopIteration (mainInit sampleFlash 0) (turnedInput 33333334)

/-- The state `sampleBrowsing` with ten periodic checks counted. -/
def sampleBrowsingLate : State :=
  { sampleBrowsing with counter := 10 }

/-- A state used to instantiate the theorems: Displaying with the backlight
on, the button seen low (pressed) since time 0 but not yet accepted. -/
def sampleLit : State :=
  { sampleDark with backlight_state := true }

/-- Calls of `checkButton` used to instantiate the theorems: the pin is low
at 120 ms, 240 ms and 360 ms. -/
def sampleHeld : List (Bool × Int) :=
  [(false, 1000000), (false, 2000000), (false, 3000000)]

/-- A state used to instantiate the theorems: browsing the menu with Units
selected and a window that starts at Units. -/
def sampleScrolled : State :=
  { sampleBrowsing with selectedMenuItem := SET_UNITS, menuOffset := 2 }

/-- A state used to instantiate the theorems: a redraw pending in InMenu with
the selection value 7 and the window starting at 2, so that the selection
lies below the four-line window. -/
def sampleBelow : State :=
  { sampleBrowsing with selectedMenuItem := 7, menuOffset := 2 }

/-- A state used to instantiate the theorems: editing Temp2, with
temperature2 at its lower bound. -/
def sampleEditing2 : State :=
  { sampleEditing with selectedMenuItem := SET_TEMP2 }

/-- The first eleven loop iterations of a run in which the user does nothing:
each comes more than 1000 ms (modulo the wrap of the millisecond clock at
4294 ms) after the one before, at the clock values 1500, 3000, 500, 2000,
3500, 1000, 2500, 4000, 1500, 3000 and 500 ms. -/
def elevenIdleChecks : List LoopInput :=
  [idleInput 12500000, idleInput 25000000, idleInput 4166667, idleInput 16666667,
   idleInput 29166667, idleInput 8333334, idleInput 20833334, idleInput 33333334,
   idleInput 12500000, idleInput 25000000, idleInput 4166667]

/-- The state after start-up at 3000 ms and the eleven idle iterations: the
eleventh periodic check has blanked the display. -/
def sampleBlanked : State :=
  runLoop (mainInit sampleFlash 25000000) elevenIdleChecks

/-- Size of `char temp_buf[16]`, the buffer of `updateMenu` that the
Displaying branch formats into. -/
def TEMP_BUF_SIZE : Nat := 16

/-- The characters that `sprintf( temp_buf, "Reading:%d%s    ", sensor1Value,
units )` produces (line 409), without the terminating NUL: the decimal digits
of the sensor value and the one letter held by `units`. -/
def readingLine (sensor1Value : Nat) (unit : Char) : List Char :=
  "Reading:".toList ++ Nat.toDigits 10 sensor1Value ++ [unit] ++ "    ".toList

/-- Number of bytes that `sprintf` stores into `temp_buf` for the reading
line: its characters and the terminating NUL. -/
def readingLineBytes (sensor1Value : Nat) (unit : Char) : Nat :=
  (readingLine sensor1Value unit).length + 1

/-- The bytes stored into `temp_buf` when the Displaying screen is drawn in
state `s`. -/
def readingLineBytesOf (s : State) : Nat :=
  readingLineBytes s.sensor1Value.toNat s.units0

/-- Number of elements of `uint8_t buf[3]`, the local buffer of `LCD_Send`
(`lcd_i2c.c`). -/
def LCD_SEND_BUF_LEN : Nat := 3

/-- What `LCD_Send` does with its local buffer `buf`: the stores
`buf[i] = v` as pairs `(i, v)` in source order, and the number of bytes of
`buf` that it hands to `i2c_write`. -/
structure SendFrame where
  stores : List (Nat × Nat)
  sent : Nat
  deriving DecidableEq, Repr

/-- `static void LCD_Send( uint8_t address, uint8_t data, uint8_t mode )` of
`lcd_i2c.c`, as far as its buffer goes. `x & ~0x04` on a byte is written
`x &&& 0xFB`. -/
def LCD_Send (data mode : Nat) : SendFrame :=
  let data := data % 256
  let mode := mode % 256
  let high_nibble :=
    ((data &&& 0xF0) ||| (if mode ≠ 0 then 0x01 else 0x00) ||| 0x04 ||| 0x08) % 256
  let low_nibble :=
    (((data <<< 4) &&& 0xF0) ||| (if mode ≠ 0 then 0x01 else 0x00) ||| 0x04 ||| 0x08) % 256
  -- Send high nibble, then low nibble
  { stores := [(0, high_nibble), (1, high_nibble &&& 0xFB),
               (2, low_nibble), (3, low_nibble &&& 0xFB)]
    sent := 4 }

/-- The body of `handleEncoder` without its calls of `updateMenu`: the
variables right before the redraw, and whether `updateMenu` is called. -/
def handleEncoderCore (s : State) (position : Int) (tick : Int) : State × Bool :=
  let s := { s with lastInteractionTime := get_Time tick }
  if position ≠ s.lastPosition then
    let delta : Int := if position > s.lastPosition then 1 else -1
    let s := { s with lastPosition := position }
    match s.currentState with
    | MenuState.DISPLAYING_DATA =>
      ({ s with currentState := MenuState.IN_MENU
                selectedMenuItem := SET_TEMP1
                menuOffset := 0 }, true)
    | MenuState.IN_MENU =>
      let newItem := i8 (u32 (s.selectedMenuItem + delta))
      if newItem ≥ 0 ∧ newItem < MENU_ITEMS_COUNT then
        ({ s with selectedMenuItem := newItem }, true)
      else (s, false)
    | MenuState.EDITING_VALUE =>
      let s :=
        if s.selectedMenuItem = SET_TEMP1 then
          if delta > 0 ∧ s.temperature1 < 255 then { s with temperature1 := s.temperature1 + 1 }
          else if delta < 0 ∧ s.temperature1 > 0 then { s with temperature1 := s.temperature1 - 1 }
          else s
        else if s.selectedMenuItem = SET_TEMP2 then
          if delta > 0 ∧ s.temperature2 < 255 then { s with temperature2 := s.temperature2 + 1 }
          else if delta < 0 ∧ s.temperature2 > 0 then { s with temperature2 := s.temperature2 - 1 }
          else s
        else if s.selectedMenuItem = SET_UNITS then
          if delta > 0 then
            let fahrenheit := !s.fahrenheit
            { s with fahrenheit := fahrenheit
                     units0 := if fahrenheit = true then 'F' else 'C' }
          else s
        else s
      (s, true)
  else (s, false)

/-- The body of `if ( checkButton() )` without its final call of
`updateMenu`: the variables right before the redraw. -/
def buttonActionCore (s : State) (tick : Int) : State :=
  let s := { s with lastInteractionTime := get_Time tick }
  match s.currentState with
  | MenuState.IN_MENU =>
    if s.selectedMenuItem = EXIT then
      let settings : Settings :=
        { temperature1 := u8 s.temperature1, temperature2 := u8 s.temperature2 }
      { s with settings := settings
               flash := SaveSettings s.flash settings
               currentState := MenuState.DISPLAYING_DATA }
    else { s with currentState := MenuState.EDITING_VALUE }
  | MenuState.EDITING_VALUE => { s with currentState := MenuState.IN_MENU }
  | MenuState.DISPLAYING_DATA =>
    { s with currentState := MenuState.IN_MENU
             selectedMenuItem := SET_TEMP1
             menuOffset := 0 }

/-- The case `case EXIT: currentState = DISPLAYING_DATA;` of the Editing branch
of `updateMenu` is the one executed when `updateMenu` is called in state `t`. -/
def editingExitCase (t : State) : Prop :=
  t.currentState = MenuState.EDITING_VALUE ∧ t.selectedMenuItem = EXIT

/-! # Theorems -/

/-! ## The flash controller, step by step -/

/-- The busy-wait loop ends with the busy count at zero, whatever the latency. -/
theorem spinWhileBusy_eq (n : Nat) : spinWhileBusy n = 0 := by
  induction n with
  | zero => rfl
  | succ n ih => simpa [spinWhileBusy] using ih

section FlashSteps
variable (ob : Nat → Int) (lock obwre opter optpg ks oks : Bool) (busy lat : Nat)
  (log : List FlashOp)

/-- Writing the first key to `KEYR` arms the key sequence. -/
theorem writeKEYR_key1 :
    (Flash.mk ob lock obwre opter optpg ks oks busy lat log).writeKEYR FLASH_KEY1 =
      Flash.mk ob lock obwre opter optpg true oks busy lat
        (log ++ [FlashOp.writeKEYR FLASH_KEY1]) := by
  simp [Flash.writeKEYR]

/-- Writing the second key to `KEYR` after the first clears `LOCK`. -/
theorem writeKEYR_key2 :
    (Flash.mk ob lock obwre opter optpg true oks busy lat log).writeKEYR FLASH_KEY2 =
      Flash.mk ob false obwre opter optpg false oks busy lat
        (log ++ [FlashOp.writeKEYR FLASH_KEY2]) := by
  simp [Flash.writeKEYR, FLASH_KEY1, FLASH_KEY2]

/-- Writing the first key to `OBKEYR` arms the key sequence. -/
theorem writeOBKEYR_key1 :
    (Flash.mk ob lock obwre opter optpg ks oks busy lat log).writeOBKEYR FLASH_KEY1 =
      Flash.mk ob lock obwre opter optpg ks true busy lat
        (log ++ [FlashOp.writeOBKEYR FLASH_KEY1]) := by
  simp [Flash.writeOBKEYR]

/-- Writing the second key to `OBKEYR` after the first enables option-byte writes. -/
theorem writeOBKEYR_key2 :
    (Flash.mk ob lock obwre opter optpg ks true busy lat log).writeOBKEYR FLASH_KEY2 =
      Flash.mk ob lock true opter optpg ks false busy lat
        (log ++ [FlashOp.writeOBKEYR FLASH_KEY2]) := by
  simp [Flash.writeOBKEYR, FLASH_KEY1, FLASH_KEY2]

/-- Setting `OPTER` on an unlocked controller. -/
theorem ctlrSet_OPTER :
    (Flash.mk ob false obwre opter optpg ks oks busy lat log).ctlrSet CtlrBit.OPTER =
      Flash.mk ob false obwre true optpg ks oks busy lat
        (log ++ [FlashOp.setCTLR CtlrBit.OPTER]) := by
  simp [Flash.ctlrSet]

/-- Setting `STRT` with `OPTER` selected and the option bytes unlocked erases them. -/
theorem ctlrSet_STRT :
    (Flash.mk ob false true true optpg ks oks busy lat log).ctlrSet CtlrBit.STRT =
      Flash.mk (fun _ => ERASED) false true true optpg ks oks lat lat
        (log ++ [FlashOp.setCTLR CtlrBit.STRT]) := by
  simp [Flash.ctlrSet]

/-- The busy-wait leaves the controller idle and changes nothing else but the log. -/
theorem waitBusy_mk :
    (Flash.mk ob lock obwre opter optpg ks oks busy lat log).waitBusy =
      Flash.mk ob lock obwre opter optpg ks oks 0 lat (log ++ [FlashOp.waitBusy]) := by
  simp [Flash.waitBusy, spinWhileBusy_eq]

/-- Clearing `OPTER` on an unlocked controller. -/
theorem ctlrReset_OPTER :
    (Flash.mk ob false obwre opter optpg ks oks busy lat log).ctlrReset CtlrBit.OPTER =
      Flash.mk ob false obwre false optpg ks oks busy lat
        (log ++ [FlashOp.resetCTLR CtlrBit.OPTER]) := by
  simp [Flash.ctlrReset]

/-- Setting `OPTPG` on an unlocked controller. -/
theorem ctlrSet_OPTPG :
    (Flash.mk ob false obwre opter optpg ks oks busy lat log).ctlrSet CtlrBit.OPTPG =
      Flash.mk ob false obwre opter true ks oks busy lat
        (log ++ [FlashOp.setCTLR CtlrBit.OPTPG]) := by
  simp [Flash.ctlrSet]

/-- Clearing `OPTPG` on an unlocked controller. -/
theorem ctlrReset_OPTPG :
    (Flash.mk ob false obwre opter optpg ks oks busy lat log).ctlrReset CtlrBit.OPTPG =
      Flash.mk ob false obwre opter false ks oks busy lat
        (log ++ [FlashOp.resetCTLR CtlrBit.OPTPG]) := by
  simp [Flash.ctlrReset]

/-- Setting `LOCK` on an unlocked controller locks it. -/
theorem ctlrSet_LOCK :
    (Flash.mk ob false obwre opter optpg ks oks busy lat log).ctlrSet CtlrBit.LOCK =
      Flash.mk ob true obwre opter optpg ks oks busy lat
        (log ++ [FlashOp.setCTLR CtlrBit.LOCK]) := by
  simp [Flash.ctlrSet]

/-- A half-word store in programming mode lands in an erased half-word. -/
theorem writeOB_erased (i : Nat) (v : Int) (h : ob i = ERASED) :
    (Flash.mk ob false true opter true ks oks busy lat log).writeOB i v =
      Flash.mk (fun j => if j = i then u16 v else ob j) false true opter true ks oks lat lat
        (log ++ [FlashOp.writeOB i v]) := by
  simp [Flash.writeOB, h]

end FlashSteps

/-- The write-back loop: started at index `i` on a region whose half-words from `i`
on are erased, `n` iterations program the half-words `i` to `i + n - 1`. -/
theorem writeBackLoop_erased (hold : Nat → Int) (opter ks oks : Bool) (lat : Nat) :
    ∀ (n i : Nat) (log : List FlashOp),
      writeBackLoop hold n i
          (Flash.mk (fun j => if j < i then u16 (hold j) else ERASED)
            false true opter true ks oks 0 lat log)
        = Flash.mk (fun j => if j < i + n then u16 (hold j) else ERASED)
            false true opter true ks oks 0 lat (log ++ loopLog hold n i) := by
  intro n
  induction n with
  | zero => intro i log; simp [writeBackLoop, loopLog]
  | succ n ih =>
    intro i log
    have hi : (fun j => if j < i then u16 (hold j) else ERASED) i = ERASED := by simp
    rw [writeBackLoop, writeOB_erased _ _ _ _ _ _ _ i (hold i) hi, waitBusy_mk]
    have hob : (fun j => if j = i then u16 (hold i)
          else (fun j => if j < i then u16 (hold j) else ERASED) j)
        = fun j => if j < i + 1 then u16 (hold j) else ERASED := by
      funext j
      by_cases h1 : j = i
      · subst h1; simp
      · by_cases h2 : j < i
        · have : j < i + 1 := by omega
          simp [h1, h2, this]
        · have : ¬ j < i + 1 := by omega
          simp [h1, h2, this]
    rw [hob, ih (i + 1)]
    simp [loopLog, Nat.add_assoc, Nat.add_comm 1 n]

/-- The flash controller after `FlashOptionData`, field by field. -/
theorem FlashOptionData_mk (ob : Nat → Int) (lock obwre opter optpg ks oks : Bool)
    (busy lat : Nat) (log : List FlashOp) (data0 data1 : Int) :
    FlashOptionData (Flash.mk ob lock obwre opter optpg ks oks busy lat log) data0 data1
      = Flash.mk
          (fun j => if j < OB_HALFWORDS then
              u16 (holdAt (u16 (ob 0) + 65536 * u16 (ob 1)) (u32 (u8 data0 + u8 data1 * 65536))
                (u16 (ob 4) + 65536 * u16 (ob 5)) j)
            else ERASED)
          true true false false false false 0 lat
          (log ++ saveLog (holdAt (u16 (ob 0) + 65536 * u16 (ob 1))
                (u32 (u8 data0 + u8 data1 * 65536)) (u16 (ob 4) + 65536 * u16 (ob 5)))) := by
  have h0 : (fun _ : Nat => ERASED) = fun j => if j < 0 then
      u16 (holdAt (u16 (ob 0) + 65536 * u16 (ob 1)) (u32 (u8 data0 + u8 data1 * 65536))
                (u16 (ob 4) + 65536 * u16 (ob 5)) j) else ERASED := by
    funext j; simp
  simp only [FlashOptionData, writeKEYR_key1, writeKEYR_key2, writeOBKEYR_key1, writeOBKEYR_key2,
    ctlrSet_OPTER, ctlrSet_STRT, waitBusy_mk, ctlrReset_OPTER, ctlrSet_OPTPG, ob32]
  rw [h0, writeBackLoop_erased, ctlrReset_OPTPG, ctlrSet_LOCK]
  simp [saveLog]

/-- The option half-words after `SaveSettings`. -/
theorem SaveSettings_ob (f : Flash) (settings : Settings) (i : Nat) :
    (SaveSettings f settings).ob i =
      if i < OB_HALFWORDS then
        u16 (holdAt (u16 (f.ob 0) + 65536 * u16 (f.ob 1))
          (u32 (u8 (u8 settings.temperature1) + u8 (u8 (settings.temperature2 % 256)) * 65536))
          (u16 (f.ob 4) + 65536 * u16 (f.ob 5)) i)
      else ERASED := by
  obtain ⟨ob, lock, obwre, opter, optpg, ks, oks, busy, lat, log⟩ := f
  simp only [SaveSettings, FlashOptionData_mk]

/-- Round trip of the settings store, shared by the theorems below. -/
theorem LoadSettings_SaveSettings (f : Flash) (t1 t2 : Int)
    (h1 : 0 ≤ t1 ∧ t1 < 256) (h2 : 0 ≤ t2 ∧ t2 < 256) :
    LoadSettings (SaveSettings f { temperature1 := t1, temperature2 := t2 })
      = { temperature1 := t1, temperature2 := t2 } := by
  simp only [LoadSettings, SaveSettings_ob, OB_HALFWORDS, holdAt, u8, u16, u32]
  simp only [Settings.mk.injEq]
  constructor
  · simp; omega
  · simp; omega

/-- `updateMenu` changes at most `currentState` and `menuOffset`. -/
theorem updateMenu_frame (s : State) :
    updateMenu s = { s with currentState := (updateMenu s).currentState
                            menuOffset := (updateMenu s).menuOffset } := by
  unfold updateMenu
  split <;> (try split) <;> (try split) <;> rfl

/-- `updateMenu` keeps the menu invariant. -/
theorem updateMenu_inv (s : State) (h : MenuInv s) : MenuInv (updateMenu s) := by
  unfold MenuInv at *
  unfold updateMenu
  obtain ⟨h0, h3, hm⟩ := h
  split
  · split
    · rename_i hlt; simp only [u32, hm] at hlt; omega
    · split
      · rename_i hge; simp only [u32, hm, MENU_DISPLAY_LINES] at hge; omega
      · exact ⟨h0, h3, hm⟩
  · split <;> exact ⟨h0, h3, hm⟩
  · exact ⟨h0, h3, hm⟩

/-- `handleEncoder` keeps the menu invariant. -/
theorem handleEncoder_inv (s : State) (position tick : Int) (h : MenuInv s) :
    MenuInv (handleEncoder s position tick) := by
  unfold handleEncoder
  simp only
  repeat' split
  all_goals
    first
    | exact h
    | (apply updateMenu_inv
       obtain ⟨h0, h3, hm⟩ := h
       simp only [MenuInv, MENU_ITEMS_COUNT, SET_TEMP1, i8, u32] at *
       refine ⟨?_, ?_, ?_⟩ <;> first | omega | trivial)

/-- A forwarded button press keeps the menu invariant. -/
theorem buttonAction_inv (s : State) (tick : Int) (h : MenuInv s) :
    MenuInv (buttonAction s tick) := by
  unfold buttonAction
  simp only
  apply updateMenu_inv
  obtain ⟨h0, h3, hm⟩ := h
  split
  · split <;> exact ⟨h0, h3, hm⟩
  · exact ⟨h0, h3, hm⟩
  · simp [MenuInv, SET_TEMP1]

/-- `checkButton` changes at most the debouncer variables, `lastInteractionTime` and
`backlight_state`. -/
theorem checkButton_frame (s : State) (pin : Bool) (tick : Int) :
    (checkButton s pin tick).2 =
      { s with lastDebounceTime := (checkButton s pin tick).2.lastDebounceTime
               lastButtonState := (checkButton s pin tick).2.lastButtonState
               buttonState := (checkButton s pin tick).2.buttonState
               lastInteractionTime := (checkButton s pin tick).2.lastInteractionTime
               backlight_state := (checkButton s pin tick).2.backlight_state } := by
  unfold checkButton
  simp only
  repeat' split
  all_goals rfl

/-- `checkButton` keeps the menu invariant. -/
theorem checkButton_inv (s : State) (pin : Bool) (tick : Int) (h : MenuInv s) :
    MenuInv (checkButton s pin tick).2 := by
  rw [checkButton_frame]; exact h

/-- The encoder block of the loop keeps the menu invariant. -/
theorem encoderStep_inv (s : State) (inp : LoopInput) (h : MenuInv s) :
    MenuInv (encoderStep s inp) := by
  unfold encoderStep
  simp only
  split
  · exact handleEncoder_inv _ _ _ h
  · exact h

/-- The button block of the loop keeps the menu invariant. -/
theorem buttonStep_inv (s : State) (inp : LoopInput) (h : MenuInv s) :
    MenuInv (buttonStep s inp) := by
  unfold buttonStep
  simp only
  split
  · exact buttonAction_inv _ _ (checkButton_inv _ _ _ h)
  · exact checkButton_inv _ _ _ h

/-- `readSensors` changes at most `sensor1Value`. -/
theorem readSensors_frame (s : State) (raw1 : Int) :
    readSensors s raw1 = { s with sensor1Value := (readSensors s raw1).sensor1Value } := by
  unfold readSensors
  simp only
  repeat' split
  all_goals rfl

/-- The periodic block of the loop keeps the menu invariant. -/
theorem periodicCheck_inv (s : State) (inp : LoopInput) (h : MenuInv s) :
    MenuInv (periodicCheck s inp) := by
  unfold periodicCheck
  simp only
  have hr : MenuInv (readSensors s inp.raw1) := by rw [readSensors_frame]; exact h
  repeat' split
  all_goals
    first
    | exact h
    | exact hr
    | (apply updateMenu_inv; exact hr)

/-- A whole loop iteration keeps the menu invariant. -/
theorem loopIteration_inv (s : State) (inp : LoopInput) (h : MenuInv s) :
    MenuInv (loopIteration s inp) :=
  periodicCheck_inv _ _ (buttonStep_inv _ _ (encoderStep_inv _ _ h))

/-- A user event keeps the menu invariant. -/
theorem applyEvent_inv (s : State) (e : UserEvent) (h : MenuInv s) : MenuInv (applyEvent s e) := by
  cases e with
  | encoder position tick => exact handleEncoder_inv s position tick h
  | button tick => exact buttonAction_inv s tick h

/-- A sequence of user events keeps the menu invariant. -/
theorem runEvents_inv (es : List UserEvent) : ∀ s : State, MenuInv s → MenuInv (runEvents s es) := by
  induction es with
  | nil => intro s h; exact h
  | cons e es ih => intro s h; exact ih _ (applyEvent_inv s e h)


/-! ### What `updateMenu` leaves alone -/

/-- `updateMenu` does not change `selectedMenuItem`. -/
theorem updateMenu_selectedMenuItem (s : State) :
    (updateMenu s).selectedMenuItem = s.selectedMenuItem := by
  rw [updateMenu_frame]

/-- `updateMenu` does not change `fahrenheit`. -/
theorem updateMenu_fahrenheit (s : State) :
    (updateMenu s).fahrenheit = s.fahrenheit := by
  rw [updateMenu_frame]

/-- `updateMenu` does not change `units0`. -/
theorem updateMenu_units0 (s : State) :
    (updateMenu s).units0 = s.units0 := by
  rw [updateMenu_frame]

/-- `updateMenu` does not change `counter`. -/
theorem updateMenu_counter (s : State) :
    (updateMenu s).counter = s.counter := by
  rw [updateMenu_frame]

/-- `updateMenu` does not change `temperature1`. -/
theorem updateMenu_temperature1 (s : State) :
    (updateMenu s).temperature1 = s.temperature1 := by
  rw [updateMenu_frame]

/-- `updateMenu` does not change `temperature2`. -/
theorem updateMenu_temperature2 (s : State) :
    (updateMenu s).temperature2 = s.temperature2 := by
  rw [updateMenu_frame]

/-- `updateMenu` does not change `sensor1Value`. -/
theorem updateMenu_sensor1Value (s : State) :
    (updateMenu s).sensor1Value = s.sensor1Value := by
  rw [updateMenu_frame]

/-- `updateMenu` does not change `last_sensor_check`. -/
theorem updateMenu_last_sensor_check (s : State) :
    (updateMenu s).last_sensor_check = s.last_sensor_check := by
  rw [updateMenu_frame]

/-- `updateMenu` does not change `lastInteractionTime`. -/
theorem updateMenu_lastInteractionTime (s : State) :
    (updateMenu s).lastInteractionTime = s.lastInteractionTime := by
  rw [updateMenu_frame]

/-- `updateMenu` does not change `backlight_state`. -/
theorem updateMenu_backlight_state (s : State) :
    (updateMenu s).backlight_state = s.backlight_state := by
  rw [updateMenu_frame]

/-- `updateMenu` does not change `oldPos`. -/
theorem updateMenu_oldPos (s : State) :
    (updateMenu s).oldPos = s.oldPos := by
  rw [updateMenu_frame]

/-- `updateMenu` does not change `initial_count`. -/
theorem updateMenu_initial_count (s : State) :
    (updateMenu s).initial_count = s.initial_count := by
  rw [updateMenu_frame]

/-- `updateMenu` does not change `lastPosition`. -/
theorem updateMenu_lastPosition (s : State) :
    (updateMenu s).lastPosition = s.lastPosition := by
  rw [updateMenu_frame]

/-- `updateMenu` does not change `lastDebounceTime`. -/
theorem updateMenu_lastDebounceTime (s : State) :
    (updateMenu s).lastDebounceTime = s.lastDebounceTime := by
  rw [updateMenu_frame]

/-- `updateMenu` does not change `lastButtonState`. -/
theorem updateMenu_lastButtonState (s : State) :
    (updateMenu s).lastButtonState = s.lastButtonState := by
  rw [updateMenu_frame]

/-- `updateMenu` does not change `buttonState`. -/
theorem updateMenu_buttonState (s : State) :
    (updateMenu s).buttonState = s.buttonState := by
  rw [updateMenu_frame]

/-- `updateMenu` does not change `settings`. -/
theorem updateMenu_settings (s : State) :
    (updateMenu s).settings = s.settings := by
  rw [updateMenu_frame]

/-- `updateMenu` does not change `flash`. -/
theorem updateMenu_flash (s : State) :
    (updateMenu s).flash = s.flash := by
  rw [updateMenu_frame]


/-! ## C1: the selection and the window stay inside the menu -/

/-- C1: from any state whose selection is Temp1 and whose menuOffset is 0 (the
initial state, in Displaying, is one), after every finite sequence of encoder
calls and forwarded button presses, each with its redraw, selectedMenuItem is
in [0, 3], menuOffset <= selectedMenuItem < menuOffset + 4 and
menuOffset + 4 <= 4. -/
theorem C1_selection_and_window_in_range (s0 : State)
    (hsel : s0.selectedMenuItem = SET_TEMP1) (hoff : s0.menuOffset = 0)
    (es : List UserEvent) :
    0 ≤ (runEvents s0 es).selectedMenuItem ∧
    (runEvents s0 es).selectedMenuItem ≤ 3 ∧
    (runEvents s0 es).menuOffset ≤ (runEvents s0 es).selectedMenuItem ∧
    (runEvents s0 es).selectedMenuItem < (runEvents s0 es).menuOffset + MENU_DISPLAY_LINES ∧
    (runEvents s0 es).menuOffset + MENU_DISPLAY_LINES ≤ MENU_ITEMS_COUNT := by
  have h0 : MenuInv s0 :=
    ⟨by rw [hsel]; simp [SET_TEMP1], by rw [hsel]; simp [SET_TEMP1], hoff⟩
  obtain ⟨h1, h2, h3⟩ := runEvents_inv es s0 h0
  simp only [MENU_DISPLAY_LINES, MENU_ITEMS_COUNT]
  omega

/-- Witness of C1: the state after start-up with the sample flash, then four
clicks clockwise, one back, a press and one more click. -/
theorem C1_selection_and_window_in_range_witness :
    (mainInit sampleFlash 0).currentState = MenuState.DISPLAYING_DATA ∧
    (mainInit sampleFlash 0).selectedMenuItem = SET_TEMP1 ∧
    (mainInit sampleFlash 0).menuOffset = 0 ∧
    0 ≤ (runEvents (mainInit sampleFlash 0) sampleEvents).selectedMenuItem ∧
    (runEvents (mainInit sampleFlash 0) sampleEvents).selectedMenuItem ≤ 3 ∧
    (runEvents (mainInit sampleFlash 0) sampleEvents).menuOffset
      ≤ (runEvents (mainInit sampleFlash 0) sampleEvents).selectedMenuItem ∧
    (runEvents (mainInit sampleFlash 0) sampleEvents).selectedMenuItem
      < (runEvents (mainInit sampleFlash 0) sampleEvents).menuOffset + MENU_DISPLAY_LINES ∧
    (runEvents (mainInit sampleFlash 0) sampleEvents).menuOffset + MENU_DISPLAY_LINES
      ≤ MENU_ITEMS_COUNT :=
  ⟨rfl, rfl, rfl,
    C1_selection_and_window_in_range (mainInit sampleFlash 0) rfl rfl sampleEvents⟩


/-! ## C2: the thresholds stay bytes -/

/-- `updateMenu` keeps both thresholds in range. -/
theorem updateMenu_temps (s : State) (h : TempInv s) : TempInv (updateMenu s) := by
  rw [updateMenu_frame]; exact h

/-- `handleEncoder` keeps both thresholds in range. -/
theorem handleEncoder_temps (s : State) (position tick : Int) (h : TempInv s) :
    TempInv (handleEncoder s position tick) := by
  unfold handleEncoder
  simp only
  repeat' split
  all_goals
    first
    | exact h
    | (apply updateMenu_temps
       obtain ⟨h1, h2, h3, h4⟩ := h
       simp only [TempInv] at *
       refine ⟨?_, ?_, ?_, ?_⟩ <;> omega)

/-- A forwarded button press keeps both thresholds in range. -/
theorem buttonAction_temps (s : State) (tick : Int) (h : TempInv s) :
    TempInv (buttonAction s tick) := by
  unfold buttonAction
  simp only
  apply updateMenu_temps
  repeat' split
  all_goals exact h

/-- A sequence of user events keeps both thresholds in range. -/
theorem runEvents_temps (es : List UserEvent) :
    ∀ s : State, TempInv s → TempInv (runEvents s es) := by
  induction es with
  | nil => intro s h; exact h
  | cons e es ih =>
    intro s h
    cases e with
    | encoder position tick => exact ih _ (handleEncoder_temps s position tick h)
    | button tick => exact ih _ (buttonAction_temps s tick h)

/-- C2: `LoadSettings` yields two values in [0, 255]; from every state whose
temperature1 and temperature2 are in [0, 255], every finite sequence of
encoder calls and forwarded button presses leaves both in [0, 255]; and a
positive delta at 255 or a negative delta at 0 leaves the value unchanged. -/
theorem C2_temperatures_stay_in_range :
    (∀ f : Flash,
      0 ≤ (LoadSettings f).temperature1 ∧ (LoadSettings f).temperature1 ≤ 255 ∧
      0 ≤ (LoadSettings f).temperature2 ∧ (LoadSettings f).temperature2 ≤ 255) ∧
    (∀ (s0 : State) (es : List UserEvent),
      0 ≤ s0.temperature1 ∧ s0.temperature1 ≤ 255 ∧
      0 ≤ s0.temperature2 ∧ s0.temperature2 ≤ 255 →
      0 ≤ (runEvents s0 es).temperature1 ∧ (runEvents s0 es).temperature1 ≤ 255 ∧
      0 ≤ (runEvents s0 es).temperature2 ∧ (runEvents s0 es).temperature2 ≤ 255) ∧
    (∀ (s : State) (position tick : Int), s.lastPosition < position →
      (s.temperature1 = 255 → (handleEncoder s position tick).temperature1 = 255) ∧
      (s.temperature2 = 255 → (handleEncoder s position tick).temperature2 = 255)) ∧
    (∀ (s : State) (position tick : Int), position < s.lastPosition →
      (s.temperature1 = 0 → (handleEncoder s position tick).temperature1 = 0) ∧
      (s.temperature2 = 0 → (handleEncoder s position tick).temperature2 = 0)) := by
  refine ⟨?_, ?_, ?_, ?_⟩
  · intro f
    simp only [LoadSettings, u8, u16]
    omega
  · intro s0 es h
    exact runEvents_temps es s0 h
  · intro s position tick hp
    constructor
    · intro ht
      unfold handleEncoder
      simp only
      repeat' split
      all_goals simp only [updateMenu_temperature1] at *
      all_goals omega
    · intro ht
      unfold handleEncoder
      simp only
      repeat' split
      all_goals simp only [updateMenu_temperature2] at *
      all_goals omega
  · intro s position tick hp
    constructor
    · intro ht
      unfold handleEncoder
      simp only
      repeat' split
      all_goals simp only [updateMenu_temperature1] at *
      all_goals omega
    · intro ht
      unfold handleEncoder
      simp only
      repeat' split
      all_goals simp only [updateMenu_temperature2] at *
      all_goals omega

/-- Witness of C2: the loaded thresholds of the sample flash, the sample
events after start-up, and single clicks at the two bounds. -/
theorem C2_temperatures_stay_in_range_witness :
    (0 ≤ (mainInit sampleFlash 0).temperature1 ∧ (mainInit sampleFlash 0).temperature1 ≤ 255 ∧
      0 ≤ (mainInit sampleFlash 0).temperature2 ∧ (mainInit sampleFlash 0).temperature2 ≤ 255) ∧
    (0 ≤ (runEvents (mainInit sampleFlash 0) sampleEvents).temperature1 ∧
      (runEvents (mainInit sampleFlash 0) sampleEvents).temperature1 ≤ 255 ∧
      0 ≤ (runEvents (mainInit sampleFlash 0) sampleEvents).temperature2 ∧
      (runEvents (mainInit sampleFlash 0) sampleEvents).temperature2 ≤ 255) ∧
    (sampleEditing.lastPosition < 1 ∧ sampleEditing.temperature1 = 255 ∧
      (handleEncoder sampleEditing 1 0).temperature1 = 255) ∧
    (-1 < sampleEditing.lastPosition ∧ sampleEditing.temperature2 = 0 ∧
      (handleEncoder sampleEditing (-1) 0).temperature2 = 0) :=
  ⟨by decide,
   C2_temperatures_stay_in_range.2.1 (mainInit sampleFlash 0) sampleEvents (by decide),
   ⟨by decide, rfl,
    (C2_temperatures_stay_in_range.2.2.1 sampleEditing 1 0 (by decide)).1 rfl⟩,
   ⟨by decide, rfl,
    (C2_temperatures_stay_in_range.2.2.2 sampleEditing (-1) 0 (by decide)).2 rfl⟩⟩


/-! ## C3, C4: the settings store -/

/-- C3: for every pair of bytes t1, t2 and every prior state of the flash
controller and content of the option bytes, `LoadSettings` applied to the
option bytes left by `SaveSettings` of (t1, t2) (unlock, erase, six half-word
programs, lock) returns temperature1 = t1 and temperature2 = t2. -/
theorem C3_save_then_load (f : Flash) (t1 t2 : Int)
    (h1 : 0 ≤ t1 ∧ t1 < 256) (h2 : 0 ≤ t2 ∧ t2 < 256) :
    LoadSettings (SaveSettings f { temperature1 := t1, temperature2 := t2 })
      = { temperature1 := t1, temperature2 := t2 } :=
  LoadSettings_SaveSettings f t1 t2 h1 h2

/-- Witness of C3: saving (81, 200) over the sample flash. -/
theorem C3_save_then_load_witness :
    ((0 : Int) ≤ 81 ∧ (81 : Int) < 256) ∧ ((0 : Int) ≤ 200 ∧ (200 : Int) < 256) ∧
    LoadSettings (SaveSettings sampleFlash { temperature1 := 81, temperature2 := 200 })
      = { temperature1 := 81, temperature2 := 200 } :=
  ⟨by decide, by decide, C3_save_then_load sampleFlash 81 200 (by decide) (by decide)⟩

/-- C4, as stated, fails: bytes 5 and 7 of the region, the upper bytes of the
half-words `Data0` and `Data1`, are not the two data fields (bytes 4 and 6),
yet saving (81, 200) over the sample flash changes byte 5 from 0xAF to 0 and
byte 7 from 0xA5 to 0, because `FlashOptionData` programs the whole half-words
from `data0 + ( data1 << 16 )`. -/
theorem C4_counterexample :
    (5 : Nat) < 2 * OB_HALFWORDS ∧ (5 : Nat) ≠ 4 ∧ (5 : Nat) ≠ 6 ∧
    obByte sampleFlash 5 = 0xAF ∧
    obByte (SaveSettings sampleFlash { temperature1 := 81, temperature2 := 200 }) 5 = 0 ∧
    obByte (SaveSettings sampleFlash { temperature1 := 81, temperature2 := 200 }) 5
      ≠ obByte sampleFlash 5 ∧
    (7 : Nat) < 2 * OB_HALFWORDS ∧ (7 : Nat) ≠ 4 ∧ (7 : Nat) ≠ 6 ∧
    obByte sampleFlash 7 = 0xA5 ∧
    obByte (SaveSettings sampleFlash { temperature1 := 81, temperature2 := 200 }) 7 = 0 ∧
    obByte (SaveSettings sampleFlash { temperature1 := 81, temperature2 := 200 }) 7
      ≠ obByte sampleFlash 7 ∧
    ¬ (∀ (f : Flash) (settings : Settings) (b : Nat),
        b < 2 * OB_HALFWORDS → b ≠ 4 → b ≠ 6 →
        obByte (SaveSettings f settings) b = obByte f b) := by
  have h5 : obByte (SaveSettings sampleFlash { temperature1 := 81, temperature2 := 200 }) 5
      = 0 := by
    simp only [obByte, SaveSettings_ob, OB_HALFWORDS]
    decide
  have h7 : obByte (SaveSettings sampleFlash { temperature1 := 81, temperature2 := 200 }) 7
      = 0 := by
    simp only [obByte, SaveSettings_ob, OB_HALFWORDS]
    decide
  have b5 : obByte sampleFlash 5 = 0xAF := by decide
  have b7 : obByte sampleFlash 7 = 0xA5 := by decide
  refine ⟨by decide, by decide, by decide, b5, h5, ?_, by decide, by decide, by decide,
    b7, h7, ?_, ?_⟩
  · rw [h5, b5]; decide
  · rw [h7, b7]; decide
  · intro h
    have := h sampleFlash { temperature1 := 81, temperature2 := 200 } 5
      (by decide) (by decide) (by decide)
    rw [h5, b5] at this
    exact absurd this (by decide)

/-- C4, amended: for every prior state of the flash controller and content of
the option bytes, and every settings saved, each byte of the twelve-byte
option-byte region outside the two data half-words `Data0` and `Data1` (so
each byte of `RDPR`, `USER`, `WRPR0`, `WRPR1`) has after `SaveSettings` the
value it had before, although the erase clears the region; of the data
half-words, byte 4 holds temperature1, byte 6 holds temperature2, and the
upper bytes 5 and 7 are zero. -/
theorem C4_other_option_bytes_preserved (f : Flash) (settings : Settings) (b : Nat)
    (hb : b < 2 * OB_HALFWORDS) :
    obByte (SaveSettings f settings) b =
      if b = 4 then u8 settings.temperature1
      else if b = 5 then 0
      else if b = 6 then u8 settings.temperature2
      else if b = 7 then 0
      else obByte f b := by
  have hcases : b = 0 ∨ b = 1 ∨ b = 2 ∨ b = 3 ∨ b = 4 ∨ b = 5 ∨ b = 6 ∨ b = 7 ∨
      b = 8 ∨ b = 9 ∨ b = 10 ∨ b = 11 := by
    simp only [OB_HALFWORDS] at hb; omega
  simp only [obByte, SaveSettings_ob, OB_HALFWORDS]
  rcases hcases with h | h | h | h | h | h | h | h | h | h | h | h <;> subst h <;>
    simp only [holdAt, u16, u32, u8] <;> simp <;> omega

/-- Witness of C4: byte 9, the upper byte of `WRPR0`, and byte 5, the upper
byte of `Data0`, when (81, 200) is saved over the sample flash. -/
theorem C4_other_option_bytes_preserved_witness :
    9 < 2 * OB_HALFWORDS ∧
    obByte (SaveSettings sampleFlash { temperature1 := 81, temperature2 := 200 }) 9
      = obByte sampleFlash 9 ∧
    5 < 2 * OB_HALFWORDS ∧
    obByte (SaveSettings sampleFlash { temperature1 := 81, temperature2 := 200 }) 5 = 0 :=
  ⟨by decide,
    C4_other_option_bytes_preserved sampleFlash { temperature1 := 81, temperature2 := 200 } 9
      (by decide),
    by decide,
    C4_other_option_bytes_preserved sampleFlash { temperature1 := 81, temperature2 := 200 } 5
      (by decide)⟩


/-! ## C5: the units toggle -/

/-- One encoder call while editing Units: the state stays Editing on Units,
the flag is toggled exactly by a positive delta, and the letter follows. -/
theorem handleEncoder_units (s : State) (position tick : Int)
    (hstate : s.currentState = MenuState.EDITING_VALUE)
    (hsel : s.selectedMenuItem = SET_UNITS) :
    (handleEncoder s position tick).currentState = MenuState.EDITING_VALUE ∧
    (handleEncoder s position tick).selectedMenuItem = SET_UNITS ∧
    (handleEncoder s position tick).lastPosition = position ∧
    (handleEncoder s position tick).fahrenheit
      = (if position > s.lastPosition then !s.fahrenheit else s.fahrenheit) ∧
    (handleEncoder s position tick).units0
      = (if position > s.lastPosition then (if (!s.fahrenheit) = true then 'F' else 'C')
         else s.units0) := by
  unfold handleEncoder updateMenu
  simp only [hstate, hsel, SET_UNITS, SET_TEMP1, SET_TEMP2, EXIT]
  by_cases h1 : position = s.lastPosition
  · simp [h1]
  · by_cases h2 : position > s.lastPosition
    · simp [h1, h2]
    · simp [h1, h2]

/-- A sequence of encoder calls while editing Units: the flag is toggled once per
positive delta and the letter follows the flag. -/
theorem runEvents_units (ps : List (Int × Int)) :
    ∀ s : State, s.currentState = MenuState.EDITING_VALUE → s.selectedMenuItem = SET_UNITS →
      s.units0 = (if s.fahrenheit = true then 'F' else 'C') →
      (runEvents s (encoderEvents ps)).fahrenheit
        = (if positiveDeltas s.lastPosition ps % 2 = 0 then s.fahrenheit else !s.fahrenheit) ∧
      (runEvents s (encoderEvents ps)).units0
        = (if (runEvents s (encoderEvents ps)).fahrenheit = true then 'F' else 'C') := by
  induction ps with
  | nil => intro s _ _ hu; simpa [runEvents, encoderEvents, positiveDeltas] using hu
  | cons pt ps ih =>
    intro s hstate hsel hu
    obtain ⟨e1, e2, e3, e4, e5⟩ := handleEncoder_units s pt.1 pt.2 hstate hsel
    have hu' : (handleEncoder s pt.1 pt.2).units0
        = (if (handleEncoder s pt.1 pt.2).fahrenheit = true then 'F' else 'C') := by
      rw [e4, e5]
      by_cases h : pt.1 > s.lastPosition
      · simp [h]
      · simp [h, hu]
    have hrec := ih (handleEncoder s pt.1 pt.2) e1 e2 hu'
    have hrun : runEvents s (encoderEvents (pt :: ps))
        = runEvents (handleEncoder s pt.1 pt.2) (encoderEvents ps) := by
      simp [runEvents, encoderEvents, applyEvent]
    rw [hrun]
    refine ⟨?_, hrec.2⟩
    rw [hrec.1, e3, e4]
    simp only [positiveDeltas]
    by_cases h : pt.1 > s.lastPosition
    · by_cases hpar : positiveDeltas pt.1 ps % 2 = 0
      · have : (1 + positiveDeltas pt.1 ps) % 2 ≠ 0 := by omega
        simp [h, hpar, this]
      · have : (1 + positiveDeltas pt.1 ps) % 2 = 0 := by omega
        simp [h, hpar, this]
    · simp [h]

/-- C5: starting in Editing on Units with the unit Fahrenheit (flag set,
letter F), after any sequence of encoder calls the unit is Fahrenheit iff the
number of positive deltas is even and Celsius iff it is odd, and the letter
agrees with the flag; a call that is not a positive delta changes neither the
flag nor the letter, in any state. -/
theorem C5_units_toggle_parity :
    (∀ (s0 : State) (ps : List (Int × Int)),
      s0.currentState = MenuState.EDITING_VALUE → s0.selectedMenuItem = SET_UNITS →
      s0.fahrenheit = true → s0.units0 = 'F' →
      ((runEvents s0 (encoderEvents ps)).fahrenheit = true
        ↔ positiveDeltas s0.lastPosition ps % 2 = 0) ∧
      ((runEvents s0 (encoderEvents ps)).fahrenheit = false
        ↔ positiveDeltas s0.lastPosition ps % 2 = 1) ∧
      ((runEvents s0 (encoderEvents ps)).units0 = 'F'
        ↔ (runEvents s0 (encoderEvents ps)).fahrenheit = true) ∧
      ((runEvents s0 (encoderEvents ps)).units0 = 'C'
        ↔ (runEvents s0 (encoderEvents ps)).fahrenheit = false)) ∧
    (∀ (s : State) (position tick : Int), position ≤ s.lastPosition →
      (handleEncoder s position tick).fahrenheit = s.fahrenheit ∧
      (handleEncoder s position tick).units0 = s.units0) := by
  constructor
  · intro s0 ps hstate hsel hf hu
    have hu0 : s0.units0 = (if s0.fahrenheit = true then 'F' else 'C') := by simp [hf, hu]
    obtain ⟨r1, r2⟩ := runEvents_units ps s0 hstate hsel hu0
    rw [r2, r1, hf]
    by_cases hpar : positiveDeltas s0.lastPosition ps % 2 = 0
    · have : ¬ positiveDeltas s0.lastPosition ps % 2 = 1 := by omega
      simp [hpar]
    · have : positiveDeltas s0.lastPosition ps % 2 = 1 := by omega
      simp [hpar, this]
  · intro s position tick hle
    unfold handleEncoder
    simp only
    have hgt : ¬ position > s.lastPosition := by omega
    repeat' split
    all_goals simp only [updateMenu_fahrenheit, updateMenu_units0]
    all_goals first | exact ⟨rfl, rfl⟩ | exact ⟨trivial, trivial⟩ | omega

/-- Witness of C5: three positive deltas and one negative from Fahrenheit end
in Celsius; a negative delta alone changes nothing. -/
theorem C5_units_toggle_parity_witness :
    (sampleUnits.currentState = MenuState.EDITING_VALUE ∧
      sampleUnits.selectedMenuItem = SET_UNITS ∧
      sampleUnits.fahrenheit = true ∧ sampleUnits.units0 = 'F' ∧
      positiveDeltas sampleUnits.lastPosition samplePositions = 3 ∧
      (runEvents sampleUnits (encoderEvents samplePositions)).fahrenheit = false ∧
      (runEvents sampleUnits (encoderEvents samplePositions)).units0 = 'C') ∧
    ((-1 : Int) ≤ sampleUnits.lastPosition ∧
      (handleEncoder sampleUnits (-1) 0).fahrenheit = sampleUnits.fahrenheit ∧
      (handleEncoder sampleUnits (-1) 0).units0 = sampleUnits.units0) :=
  ⟨⟨rfl, rfl, rfl, rfl, rfl,
    (C5_units_toggle_parity.1 sampleUnits samplePositions rfl rfl rfl rfl).2.1.2 rfl,
    (C5_units_toggle_parity.1 sampleUnits samplePositions rfl rfl rfl rfl).2.2.2.2
      ((C5_units_toggle_parity.1 sampleUnits samplePositions rfl rfl rfl rfl).2.1.2 rfl)⟩,
   ⟨by decide, C5_units_toggle_parity.2 sampleUnits (-1) 0 (by decide)⟩⟩


/-! ## C6: entering the menu by rotation -/

/-- C6: in Displaying, whatever the stale selection and menuOffset, a call of
`handleEncoder` with a position different from the last one (either
direction, any magnitude) leaves currentState = InMenu, selectedMenuItem =
Temp1 and menuOffset = 0, and changes neither temperature nor the units. -/
theorem C6_rotation_enters_menu (s : State) (position tick : Int)
    (hstate : s.currentState = MenuState.DISPLAYING_DATA)
    (hpos : position ≠ s.lastPosition) :
    (handleEncoder s position tick).currentState = MenuState.IN_MENU ∧
    (handleEncoder s position tick).selectedMenuItem = SET_TEMP1 ∧
    (handleEncoder s position tick).menuOffset = 0 ∧
    (handleEncoder s position tick).temperature1 = s.temperature1 ∧
    (handleEncoder s position tick).temperature2 = s.temperature2 ∧
    (handleEncoder s position tick).fahrenheit = s.fahrenheit ∧
    (handleEncoder s position tick).units0 = s.units0 := by
  unfold handleEncoder updateMenu
  simp [hstate, hpos, SET_TEMP1, u32, MENU_DISPLAY_LINES]

/-- Witness of C6: a jump of seven detents backwards in Displaying, with Exit
and offset 2 left over from an earlier visit of the menu. -/
theorem C6_rotation_enters_menu_witness :
    sampleStale.currentState = MenuState.DISPLAYING_DATA ∧
    (-7 : Int) ≠ sampleStale.lastPosition ∧
    (handleEncoder sampleStale (-7) 0).currentState = MenuState.IN_MENU ∧
    (handleEncoder sampleStale (-7) 0).selectedMenuItem = SET_TEMP1 ∧
    (handleEncoder sampleStale (-7) 0).menuOffset = 0 ∧
    (handleEncoder sampleStale (-7) 0).temperature1 = sampleStale.temperature1 ∧
    (handleEncoder sampleStale (-7) 0).temperature2 = sampleStale.temperature2 ∧
    (handleEncoder sampleStale (-7) 0).fahrenheit = sampleStale.fahrenheit ∧
    (handleEncoder sampleStale (-7) 0).units0 = sampleStale.units0 :=
  ⟨rfl, by decide, C6_rotation_enters_menu sampleStale (-7) 0 rfl (by decide)⟩


/-! ## C7, C8: persistence happens on Exit, and only there -/

/-- C7: in InMenu with Exit selected and both thresholds in [0, 255], a
forwarded button press leaves currentState = Displaying and writes
temperature1 and temperature2 to the data half-words `Data0` and `Data1`: a
subsequent `LoadSettings` returns exactly these two values. -/
theorem C7_exit_persists (s : State) (tick : Int)
    (hstate : s.currentState = MenuState.IN_MENU) (hsel : s.selectedMenuItem = EXIT)
    (h1 : 0 ≤ s.temperature1 ∧ s.temperature1 ≤ 255)
    (h2 : 0 ≤ s.temperature2 ∧ s.temperature2 ≤ 255) :
    (buttonAction s tick).currentState = MenuState.DISPLAYING_DATA ∧
    (buttonAction s tick).flash.ob 2 = s.temperature1 ∧
    (buttonAction s tick).flash.ob 3 = s.temperature2 ∧
    LoadSettings (buttonAction s tick).flash
      = { temperature1 := s.temperature1, temperature2 := s.temperature2 } := by
  have hb : buttonAction s tick =
      updateMenu { s with lastInteractionTime := get_Time tick
                          settings := { temperature1 := u8 s.temperature1
                                        temperature2 := u8 s.temperature2 }
                          flash := SaveSettings s.flash
                            { temperature1 := u8 s.temperature1
                              temperature2 := u8 s.temperature2 }
                          currentState := MenuState.DISPLAYING_DATA } := by
    unfold buttonAction
    simp [hstate, hsel]
  have e1 : u8 s.temperature1 = s.temperature1 := by simp only [u8]; omega
  have e2 : u8 s.temperature2 = s.temperature2 := by simp only [u8]; omega
  rw [hb, e1, e2]
  refine ⟨?_, ?_, ?_, ?_⟩
  · simp [updateMenu]
  · simp only [updateMenu_flash, SaveSettings_ob, OB_HALFWORDS, holdAt, u8, u16, u32]
    simp; omega
  · simp only [updateMenu_flash, SaveSettings_ob, OB_HALFWORDS, holdAt, u8, u16, u32]
    simp; omega
  · simp only [updateMenu_flash]
    exact LoadSettings_SaveSettings _ _ _ (by omega) (by omega)

/-- Witness of C7: the press on Exit with thresholds 81 and 200. -/
theorem C7_exit_persists_witness :
    sampleOnExit.currentState = MenuState.IN_MENU ∧ sampleOnExit.selectedMenuItem = EXIT ∧
    (0 ≤ sampleOnExit.temperature1 ∧ sampleOnExit.temperature1 ≤ 255) ∧
    (0 ≤ sampleOnExit.temperature2 ∧ sampleOnExit.temperature2 ≤ 255) ∧
    (buttonAction sampleOnExit 0).currentState = MenuState.DISPLAYING_DATA ∧
    (buttonAction sampleOnExit 0).flash.ob 2 = sampleOnExit.temperature1 ∧
    (buttonAction sampleOnExit 0).flash.ob 3 = sampleOnExit.temperature2 ∧
    LoadSettings (buttonAction sampleOnExit 0).flash
      = { temperature1 := sampleOnExit.temperature1, temperature2 := sampleOnExit.temperature2 } :=
  ⟨rfl, rfl, by decide, by decide,
    C7_exit_persists sampleOnExit 0 rfl rfl (by decide) (by decide)⟩


/-- `handleEncoder` does not touch the flash controller. -/
theorem handleEncoder_flash (s : State) (position tick : Int) :
    (handleEncoder s position tick).flash = s.flash := by
  unfold handleEncoder
  simp only
  repeat' split
  all_goals simp only [updateMenu_flash]

/-- `checkButton` does not touch the flash controller. -/
theorem checkButton_flash (s : State) (pin : Bool) (tick : Int) :
    (checkButton s pin tick).2.flash = s.flash := by
  rw [checkButton_frame]

/-- The encoder block of the loop does not touch the flash controller. -/
theorem encoderStep_flash (s : State) (inp : LoopInput) :
    (encoderStep s inp).flash = s.flash := by
  unfold encoderStep
  simp only
  split
  · exact handleEncoder_flash _ _ _
  · rfl

/-- The periodic block of the loop does not touch the flash controller. -/
theorem periodicCheck_flash (s : State) (inp : LoopInput) :
    (periodicCheck s inp).flash = s.flash := by
  unfold periodicCheck
  simp only
  have hr : (readSensors s inp.raw1).flash = s.flash := by rw [readSensors_frame]
  repeat' split
  all_goals simp only [updateMenu_flash]
  all_goals first | rfl | exact hr

/-- A forwarded button press touches the flash controller only in InMenu on Exit. -/
theorem buttonAction_flash (s : State) (tick : Int)
    (h : ¬ (s.currentState = MenuState.IN_MENU ∧ s.selectedMenuItem = EXIT)) :
    (buttonAction s tick).flash = s.flash := by
  unfold buttonAction
  simp only [updateMenu_flash]
  split
  · split
    · rename_i h1 h2
      exact absurd ⟨h1, h2⟩ h
    · rfl
  · rfl
  · rfl

/-- C8: an encoder call, a call of `checkButton`, a periodic check, and a
forwarded button press in any state other than InMenu with Exit selected all
leave the flash controller, and with it the option bytes, unchanged; so does
every whole loop iteration except one in which `checkButton` forwards a press
while the menu is in InMenu with Exit selected. -/
theorem C8_persistence_only_on_exit :
    (∀ (s : State) (position tick : Int), (handleEncoder s position tick).flash = s.flash) ∧
    (∀ (s : State) (pin : Bool) (tick : Int), (checkButton s pin tick).2.flash = s.flash) ∧
    (∀ (s : State) (inp : LoopInput), (periodicCheck s inp).flash = s.flash) ∧
    (∀ (s : State) (tick : Int),
      ¬ (s.currentState = MenuState.IN_MENU ∧ s.selectedMenuItem = EXIT) →
      (buttonAction s tick).flash = s.flash) ∧
    (∀ (s : State) (inp : LoopInput),
      ¬ ((checkButton (encoderStep s inp) inp.pin inp.tickCheck).1 ≠ 0 ∧
         (encoderStep s inp).currentState = MenuState.IN_MENU ∧
         (encoderStep s inp).selectedMenuItem = EXIT) →
      (loopIteration s inp).flash = s.flash) := by
  refine ⟨handleEncoder_flash, checkButton_flash, periodicCheck_flash, buttonAction_flash, ?_⟩
  intro s inp h
  unfold loopIteration
  rw [periodicCheck_flash]
  unfold buttonStep
  simp only
  split
  · rename_i hr
    rw [buttonAction_flash, checkButton_flash, encoderStep_flash]
    rw [checkButton_frame]
    intro hc
    exact h ⟨hr, hc.1, hc.2⟩
  · rw [checkButton_flash, encoderStep_flash]

/-- Witness of C8: a forwarded press while editing Temp1, and an idle loop
iteration after start-up. -/
theorem C8_persistence_only_on_exit_witness :
    (¬ (sampleEditing.currentState = MenuState.IN_MENU ∧ sampleEditing.selectedMenuItem = EXIT) ∧
      (buttonAction sampleEditing 0).flash = sampleEditing.flash) ∧
    (¬ ((checkButton (encoderStep (mainInit sampleFlash 0) (idleInput 0))
            (idleInput 0).pin (idleInput 0).tickCheck).1 ≠ 0 ∧
         (encoderStep (mainInit sampleFlash 0) (idleInput 0)).currentState = MenuState.IN_MENU ∧
         (encoderStep (mainInit sampleFlash 0) (idleInput 0)).selectedMenuItem = EXIT) ∧
      (loopIteration (mainInit sampleFlash 0) (idleInput 0)).flash
        = (mainInit sampleFlash 0).flash) :=
  ⟨⟨by decide, C8_persistence_only_on_exit.2.2.2.1 sampleEditing 0 (by decide)⟩,
   ⟨by decide,
    C8_persistence_only_on_exit.2.2.2.2 (mainInit sampleFlash 0) (idleInput 0) (by decide)⟩⟩


/-! ## C9: the first press with the backlight off only wakes the display -/

/-- C9: whenever a call of `checkButton` flips the stable state to pressed
(buttonState was not 0 and is 0 afterwards) while backlight_state is off, the
call returns 0, leaves backlight_state on and lastInteractionTime at the
current time, and the button handling of that loop iteration leaves
currentState, selectedMenuItem, menuOffset, both temperatures and the units
unchanged. -/
theorem C9_wake_without_acting (s : State) (inp : LoopInput)
    (hold : s.buttonState ≠ 0)
    (hnew : (checkButton s inp.pin inp.tickCheck).2.buttonState = 0)
    (hdark : s.backlight_state = false) :
    (checkButton s inp.pin inp.tickCheck).1 = 0 ∧
    (checkButton s inp.pin inp.tickCheck).2.backlight_state = true ∧
    (checkButton s inp.pin inp.tickCheck).2.lastInteractionTime = get_Time inp.tickCheck ∧
    (buttonStep s inp).currentState = s.currentState ∧
    (buttonStep s inp).selectedMenuItem = s.selectedMenuItem ∧
    (buttonStep s inp).menuOffset = s.menuOffset ∧
    (buttonStep s inp).temperature1 = s.temperature1 ∧
    (buttonStep s inp).temperature2 = s.temperature2 ∧
    (buttonStep s inp).fahrenheit = s.fahrenheit ∧
    (buttonStep s inp).units0 = s.units0 := by
  have key : (checkButton s inp.pin inp.tickCheck).1 = 0 ∧
      (checkButton s inp.pin inp.tickCheck).2.backlight_state = true ∧
      (checkButton s inp.pin inp.tickCheck).2.lastInteractionTime = get_Time inp.tickCheck := by
    revert hnew
    unfold checkButton
    simp only
    repeat' split
    all_goals simp only [hdark]
    all_goals intro hnew
    all_goals first | exact ⟨rfl, rfl, rfl⟩ | exact absurd hnew hold | simp_all
  refine ⟨key.1, key.2.1, key.2.2, ?_⟩
  have hstep : buttonStep s inp = (checkButton s inp.pin inp.tickCheck).2 := by
    unfold buttonStep
    simp [key.1]
  rw [hstep, checkButton_frame]
  exact ⟨rfl, rfl, rfl, rfl, rfl, rfl, rfl⟩

/-- Witness of C9: the button held low for 120 ms with the backlight off. -/
theorem C9_wake_without_acting_witness :
    sampleDark.buttonState ≠ 0 ∧
    (checkButton sampleDark (pressInput 1000000).pin (pressInput 1000000).tickCheck).2.buttonState
      = 0 ∧
    sampleDark.backlight_state = false ∧
    (checkButton sampleDark (pressInput 1000000).pin (pressInput 1000000).tickCheck).1 = 0 ∧
    (checkButton sampleDark (pressInput 1000000).pin
      (pressInput 1000000).tickCheck).2.backlight_state = true ∧
    (checkButton sampleDark (pressInput 1000000).pin
      (pressInput 1000000).tickCheck).2.lastInteractionTime
      = get_Time (pressInput 1000000).tickCheck ∧
    (buttonStep sampleDark (pressInput 1000000)).currentState = sampleDark.currentState ∧
    (buttonStep sampleDark (pressInput 1000000)).selectedMenuItem = sampleDark.selectedMenuItem ∧
    (buttonStep sampleDark (pressInput 1000000)).menuOffset = sampleDark.menuOffset ∧
    (buttonStep sampleDark (pressInput 1000000)).temperature1 = sampleDark.temperature1 ∧
    (buttonStep sampleDark (pressInput 1000000)).temperature2 = sampleDark.temperature2 ∧
    (buttonStep sampleDark (pressInput 1000000)).fahrenheit = sampleDark.fahrenheit ∧
    (buttonStep sampleDark (pressInput 1000000)).units0 = sampleDark.units0 :=
  ⟨by decide, by decide, rfl,
    C9_wake_without_acting sampleDark (pressInput 1000000) (by decide) (by decide) rfl⟩


/-! ## C10: idle blanking -/

/-- C10, as stated, fails: at the first periodic check after start-up, with
the clock at 1500 ms, the last interaction at 3000 ms (the millisecond clock
has wrapped, so the unsigned idle time exceeds 10 000) and the menu in
Displaying, the check counter only goes from 0 to 1 and the backlight state
is still on after the check, and after the whole loop iteration. -/
theorem C10_counterexample :
    u32 (get_Time (idleInput 12500000).tickNow
          - (mainInit sampleFlash 25000000).last_sensor_check) > 1000 ∧
    u32 (get_Time (idleInput 12500000).tickNow
          - (mainInit sampleFlash 25000000).lastInteractionTime) > 10000 ∧
    (mainInit sampleFlash 25000000).currentState = MenuState.DISPLAYING_DATA ∧
    (mainInit sampleFlash 25000000).backlight_state = true ∧
    (periodicCheck (mainInit sampleFlash 25000000) (idleInput 12500000)).backlight_state
      = true ∧
    (loopIteration (mainInit sampleFlash 25000000) (idleInput 12500000)).backlight_state
      = true := by
  decide

/-- C10, amended: on every periodic check (current_time - last_sensor_check >
1000) at which the idle time current_time - lastInteractionTime exceeds
10 000, the menu is in Displaying, and the 8-bit check counter, incremented
at this check, exceeds 10, the backlight state is off after the check. -/
theorem C10_idle_blanking (s : State) (inp : LoopInput)
    (hcheck : u32 (get_Time inp.tickNow - s.last_sensor_check) > 1000)
    (hidle : u32 (get_Time inp.tickNow - s.lastInteractionTime) > 10000)
    (hstate : s.currentState = MenuState.DISPLAYING_DATA)
    (hcount : u8 (s.counter + 1) > 10) :
    (periodicCheck s inp).backlight_state = false := by
  have hr : readSensors s inp.raw1
      = { s with sensor1Value := (readSensors s inp.raw1).sensor1Value } := readSensors_frame _ _
  unfold periodicCheck
  rw [hr]
  simp [hcheck, hidle, hstate, hcount]

/-- Witness of C10 amended: the eleventh periodic check since the counter was
reset, at 1500 ms after the clock wrapped. -/
theorem C10_idle_blanking_witness :
    u32 (get_Time (idleInput 12500000).tickNow - sampleIdle.last_sensor_check) > 1000 ∧
    u32 (get_Time (idleInput 12500000).tickNow - sampleIdle.lastInteractionTime) > 10000 ∧
    sampleIdle.currentState = MenuState.DISPLAYING_DATA ∧
    u8 (sampleIdle.counter + 1) > 10 ∧
    (periodicCheck sampleIdle (idleInput 12500000)).backlight_state = false :=
  ⟨by decide, by decide, rfl, by decide,
    C10_idle_blanking sampleIdle (idleInput 12500000) (by decide) (by decide) rfl (by decide)⟩

/-! ## C11: browsing and editing never blank -/

/-- C11, as stated, fails in its second half: after start-up and a loop
iteration at 4000 ms in which the encoder is turned (menu in InMenu, backlight
on), the next periodic check comes at 1500 ms, after the millisecond clock
has wrapped, so the unsigned idle time exceeds 10 000; the check counter only
goes from 1 to 2, and lastInteractionTime keeps the value 4000 instead of
being reset to the current time 1500. -/
theorem C11_counterexample :
    u32 (get_Time (turnedInput 12500000).tickNow - sampleBrowsing.last_sensor_check) > 1000 ∧
    sampleBrowsing.currentState = MenuState.IN_MENU ∧
    sampleBrowsing.backlight_state = true ∧
    u32 (get_Time (turnedInput 12500000).tickNow - sampleBrowsing.lastInteractionTime) > 10000 ∧
    get_Time (turnedInput 12500000).tickNow = 1500 ∧
    get_Time (turnedInput 12500000).tickBlank = 1500 ∧
    (periodicCheck sampleBrowsing (turnedInput 12500000)).lastInteractionTime = 4000 ∧
    (runLoop (mainInit sampleFlash 0)
      [turnedInput 33333334, turnedInput 12500000]).lastInteractionTime = 4000 := by
  decide

/-- C11, amended: on every periodic check with the menu in InMenu or Editing
and the backlight state on, the backlight state is still on after the check;
and if at that check the idle time current_time - lastInteractionTime exceeds
10 000 and the 8-bit check counter, incremented at this check, exceeds 10,
then lastInteractionTime is reset to the time `get_Time` returns then. -/
theorem C11_browsing_never_blanks (s : State) (inp : LoopInput)
    (hcheck : u32 (get_Time inp.tickNow - s.last_sensor_check) > 1000)
    (hstate : s.currentState = MenuState.IN_MENU ∨ s.currentState = MenuState.EDITING_VALUE)
    (hlit : s.backlight_state = true) :
    (periodicCheck s inp).backlight_state = true ∧
    (u32 (get_Time inp.tickNow - s.lastInteractionTime) > 10000 →
      u8 (s.counter + 1) > 10 →
      (periodicCheck s inp).lastInteractionTime = get_Time inp.tickBlank) := by
  have hr : readSensors s inp.raw1
      = { s with sensor1Value := (readSensors s inp.raw1).sensor1Value } := readSensors_frame _ _
  have hnd : s.currentState ≠ MenuState.DISPLAYING_DATA := by
    rcases hstate with h | h <;> rw [h] <;> decide
  constructor
  · unfold periodicCheck
    rw [hr]
    simp only [hcheck, if_true]
    repeat' split
    all_goals simp only [updateMenu_backlight_state] at *
    all_goals exact hlit
  · intro hidle hcount
    unfold periodicCheck
    rw [hr]
    simp [hcheck, hidle, hcount, hnd, updateMenu_lastInteractionTime]

/-- Witness of C11 amended: the eleventh periodic check since the counter was
reset, with the menu in InMenu. -/
theorem C11_browsing_never_blanks_witness :
    u32 (get_Time (turnedInput 12500000).tickNow - sampleBrowsingLate.last_sensor_check) > 1000 ∧
    (sampleBrowsingLate.currentState = MenuState.IN_MENU ∨
      sampleBrowsingLate.currentState = MenuState.EDITING_VALUE) ∧
    sampleBrowsingLate.backlight_state = true ∧
    u32 (get_Time (turnedInput 12500000).tickNow - sampleBrowsingLate.lastInteractionTime)
      > 10000 ∧
    u8 (sampleBrowsingLate.counter + 1) > 10 ∧
    (periodicCheck sampleBrowsingLate (turnedInput 12500000)).backlight_state = true ∧
    (periodicCheck sampleBrowsingLate (turnedInput 12500000)).lastInteractionTime
      = get_Time (turnedInput 12500000).tickBlank :=
  ⟨by decide, by decide, by decide, by decide, by decide,
    (C11_browsing_never_blanks sampleBrowsingLate (turnedInput 12500000)
      (by decide) (by decide) (by decide)).1,
    (C11_browsing_never_blanks sampleBrowsingLate (turnedInput 12500000)
      (by decide) (by decide) (by decide)).2 (by decide) (by decide)⟩

/-! ## C12, C13: the sensor read-out -/

/-- C12: for every 16-bit raw sensor word whose validity bit (bit 2, mask 0x4)
is set, and for either unit setting, `readSensors` leaves sensor1Value = 0,
whatever the other bits of the word. -/
theorem C12_fault_gives_zero (s : State) (raw1 : Int)
    (hraw : 0 ≤ raw1 ∧ raw1 < 65536) (hbit : raw1 / 4 % 2 = 1) :
    (readSensors s raw1).sensor1Value = 0 := by
  have hu : u16 raw1 = raw1 := by simp only [u16]; omega
  unfold readSensors
  simp only [hu]
  have hne : ¬ raw1 / 4 % 2 = 0 := by omega
  simp [hne]

/-- Witness of C12: the word 0xFFFF (all bits set) in Fahrenheit, and the word
0x0004 (only the validity bit set) in Celsius. -/
theorem C12_fault_gives_zero_witness :
    ((0 : Int) ≤ 65535 ∧ (65535 : Int) < 65536) ∧ (65535 : Int) / 4 % 2 = 1 ∧
    (readSensors (mainInit sampleFlash 0) 65535).sensor1Value = 0 ∧
    (readSensors { mainInit sampleFlash 0 with fahrenheit := false } 4).sensor1Value = 0 :=
  ⟨by decide, by decide,
    C12_fault_gives_zero (mainInit sampleFlash 0) 65535 (by decide) (by decide),
    C12_fault_gives_zero { mainInit sampleFlash 0 with fahrenheit := false } 4
      (by decide) (by decide)⟩

/-- C13: for every 16-bit raw sensor word with the validity bit clear,
`readSensors` sets sensor1Value to c = (raw >> 3) / 4 when the unit is Celsius
and to c * 9 / 5 rounded down, plus 32, when it is Fahrenheit; the value
before its conversion to the 16-bit variable is at most 3716, so the
conversion does not change it. -/
theorem C13_sensor_conversion (s : State) (raw1 : Int)
    (hraw : 0 ≤ raw1 ∧ raw1 < 65536) (hbit : raw1 / 4 % 2 = 0) :
    (s.fahrenheit = false → (readSensors s raw1).sensor1Value = raw1 / 8 / 4) ∧
    (s.fahrenheit = true → (readSensors s raw1).sensor1Value = raw1 / 8 / 4 * 9 / 5 + 32) ∧
    0 ≤ raw1 / 8 / 4 * 9 / 5 + 32 ∧ raw1 / 8 / 4 * 9 / 5 + 32 ≤ 3716 ∧
    0 ≤ (readSensors s raw1).sensor1Value ∧ (readSensors s raw1).sensor1Value ≤ 3716 := by
  have hu : u16 raw1 = raw1 := by simp only [u16]; omega
  have hc : u16 (raw1 / 8 / 4) = raw1 / 8 / 4 := by simp only [u16]; omega
  have hf : u16 (raw1 / 8 / 4 * 9 / 5 + 32) = raw1 / 8 / 4 * 9 / 5 + 32 := by
    simp only [u16]; omega
  have hval : (readSensors s raw1).sensor1Value
      = if s.fahrenheit = true then raw1 / 8 / 4 * 9 / 5 + 32 else raw1 / 8 / 4 := by
    unfold readSensors
    simp only [hu, hbit, if_true, hc, hf]
    split <;> rfl
  refine ⟨?_, ?_, by omega, by omega, ?_, ?_⟩
  · intro h; rw [hval]; simp [h]
  · intro h; rw [hval]; simp [h]
  · rw [hval]; split <;> omega
  · rw [hval]; split <;> omega

/-- Witness of C13: the largest valid word 0xFFFB gives 3716 in Fahrenheit and
2047 in Celsius. -/
theorem C13_sensor_conversion_witness :
    ((0 : Int) ≤ 65531 ∧ (65531 : Int) < 65536) ∧ (65531 : Int) / 4 % 2 = 0 ∧
    (readSensors (mainInit sampleFlash 0) 65531).sensor1Value = 3716 ∧
    (readSensors { mainInit sampleFlash 0 with fahrenheit := false } 65531).sensor1Value
      = 2047 :=
  ⟨by decide, by decide,
    (C13_sensor_conversion (mainInit sampleFlash 0) 65531 (by decide) (by decide)).2.1 rfl,
    (C13_sensor_conversion { mainInit sampleFlash 0 with fahrenheit := false } 65531
      (by decide) (by decide)).1 rfl⟩

/-! ## C14, C15: the debouncer -/

/-- The stable state after `checkButton`: it becomes the reading exactly when
the reading repeats the previous one, differs from the stable state, and more
than `DEBOUNCE_TIME` has passed since the last change of the reading. -/
theorem checkButton_buttonState (s : State) (pin : Bool) (tick : Int) :
    (checkButton s pin tick).2.buttonState =
      if (if pin = true then (1 : Int) else 0) = s.lastButtonState ∧
          (if pin = true then (1 : Int) else 0) ≠ s.buttonState ∧
          u32 (get_Time tick - s.lastDebounceTime) > DEBOUNCE_TIME
      then (if pin = true then (1 : Int) else 0) else s.buttonState := by
  unfold checkButton
  simp only
  generalize (if pin = true then (1 : Int) else 0) = reading
  by_cases h1 : reading = s.lastButtonState
  · simp only [h1, ne_eq, not_true_eq_false, if_false, true_and]
    repeat' split
    all_goals first | rfl | (exfalso; simp_all)
  · have h0 : ¬ u32 (get_Time tick - get_Time tick) > DEBOUNCE_TIME := by
      simp [u32, DEBOUNCE_TIME]
    simp only [ne_eq, h1, not_false_eq_true, if_true, h0, if_false, false_and]

/-- The value returned by `checkButton` is 1 exactly when the call flips the
stable state to 0 while the backlight state is on, and 0 otherwise. -/
theorem checkButton_result (s : State) (pin : Bool) (tick : Int) :
    (checkButton s pin tick).1 =
      if s.buttonState ≠ 0 ∧ (checkButton s pin tick).2.buttonState = 0 ∧
          s.backlight_state = true
      then 1 else 0 := by
  unfold checkButton
  simp only
  generalize (if pin = true then (1 : Int) else 0) = reading
  repeat' split
  all_goals first | rfl | (exfalso; simp_all; done) | (exfalso; simp_all; rename_i h; exact h.1 h.2.1)

/-- C14: for every debouncer state, pin level and time stamp, `checkButton`
makes the stable state equal to the raw reading, which it was not before,
exactly when the reading equals the previous raw reading, differs from the
stable state, and currentTime - lastDebounceTime (modulo 2^32) exceeds the
debounce window of 50 ms; in every other call the stable state is unchanged
and the result is 0. A call whose reading differs from the previous reading
sets lastDebounceTime to the current time, leaves the stable state unchanged
and returns 0. -/
theorem C14_debounce_window (s : State) (pin : Bool) (tick : Int) :
    ((if pin = true then (1 : Int) else 0) = s.lastButtonState ∧
      (if pin = true then (1 : Int) else 0) ≠ s.buttonState ∧
      u32 (get_Time tick - s.lastDebounceTime) > 50 →
        (checkButton s pin tick).2.buttonState = (if pin = true then (1 : Int) else 0) ∧
        (checkButton s pin tick).2.buttonState ≠ s.buttonState) ∧
    (¬ ((if pin = true then (1 : Int) else 0) = s.lastButtonState ∧
        (if pin = true then (1 : Int) else 0) ≠ s.buttonState ∧
        u32 (get_Time tick - s.lastDebounceTime) > 50) →
        (checkButton s pin tick).2.buttonState = s.buttonState ∧
        (checkButton s pin tick).1 = 0) ∧
    ((if pin = true then (1 : Int) else 0) ≠ s.lastButtonState →
        (checkButton s pin tick).2.lastDebounceTime = get_Time tick ∧
        (checkButton s pin tick).2.buttonState = s.buttonState ∧
        (checkButton s pin tick).1 = 0) ∧
    (checkButton s pin tick).2.lastButtonState = (if pin = true then (1 : Int) else 0) := by
  have hb := checkButton_buttonState s pin tick
  have hres := checkButton_result s pin tick
  simp only [DEBOUNCE_TIME] at hb
  refine ⟨?_, ?_, ?_, ?_⟩
  · intro hc
    rw [hb, if_pos hc]
    exact ⟨rfl, hc.2.1⟩
  · intro hc
    rw [if_neg hc] at hb
    refine ⟨hb, ?_⟩
    rw [hres, hb]
    have : ¬ (s.buttonState ≠ 0 ∧ s.buttonState = 0 ∧ s.backlight_state = true) :=
      fun h => h.1 h.2.1
    rw [if_neg this]
  · intro hne
    have hc : ¬ ((if pin = true then (1 : Int) else 0) = s.lastButtonState ∧
        (if pin = true then (1 : Int) else 0) ≠ s.buttonState ∧
        u32 (get_Time tick - s.lastDebounceTime) > 50) := fun h => hne h.1
    rw [if_neg hc] at hb
    refine ⟨?_, hb, ?_⟩
    · unfold checkButton
      simp only
      generalize (if pin = true then (1 : Int) else 0) = reading at hne
      simp only [ne_eq, hne, not_false_eq_true, if_true]
      repeat' split
      all_goals rfl
    · rw [hres, hb]
      have : ¬ (s.buttonState ≠ 0 ∧ s.buttonState = 0 ∧ s.backlight_state = true) :=
        fun h => h.1 h.2.1
      rw [if_neg this]
  · unfold checkButton
    simp only
    repeat' split
    all_goals rfl

/-- Witness of C14: the pin low for 120 ms flips the stable state to pressed;
a released button read high again changes nothing; a first low reading right
after start-up restarts the window. -/
theorem C14_debounce_window_witness :
    ((if false = true then (1 : Int) else 0) = sampleLit.lastButtonState ∧
      (if false = true then (1 : Int) else 0) ≠ sampleLit.buttonState ∧
      u32 (get_Time 1000000 - sampleLit.lastDebounceTime) > 50) ∧
    ((checkButton sampleLit false 1000000).2.buttonState = (if false = true then (1 : Int) else 0) ∧
      (checkButton sampleLit false 1000000).2.buttonState ≠ sampleLit.buttonState) ∧
    (¬ ((if true = true then (1 : Int) else 0) = (mainInit sampleFlash 0).lastButtonState ∧
        (if true = true then (1 : Int) else 0) ≠ (mainInit sampleFlash 0).buttonState ∧
        u32 (get_Time 1000000 - (mainInit sampleFlash 0).lastDebounceTime) > 50)) ∧
    ((checkButton (mainInit sampleFlash 0) true 1000000).2.buttonState
        = (mainInit sampleFlash 0).buttonState ∧
      (checkButton (mainInit sampleFlash 0) true 1000000).1 = 0) ∧
    ((if false = true then (1 : Int) else 0) ≠ (mainInit sampleFlash 0).lastButtonState) ∧
    ((checkButton (mainInit sampleFlash 0) false 1000000).2.lastDebounceTime = get_Time 1000000 ∧
      (checkButton (mainInit sampleFlash 0) false 1000000).2.buttonState
        = (mainInit sampleFlash 0).buttonState ∧
      (checkButton (mainInit sampleFlash 0) false 1000000).1 = 0) :=
  ⟨by decide,
   (C14_debounce_window sampleLit false 1000000).1 (by decide),
   by decide,
   (C14_debounce_window (mainInit sampleFlash 0) true 1000000).2.1 (by decide),
   by decide,
   (C14_debounce_window (mainInit sampleFlash 0) false 1000000).2.2.1 (by decide)⟩

/-- While the stable state is pressed and no release is recognised, every
call of `checkButton` returns 0. -/
theorem checkButtonRun_held (inputs : List (Bool × Int)) :
    ∀ s : State, s.buttonState = 0 → noRelease s inputs →
      ∀ x ∈ (checkButtonRun s inputs).1, x = 0 := by
  induction inputs with
  | nil => intro s _ _ x hx; simp [checkButtonRun] at hx
  | cons pt rest ih =>
    intro s hs hno x hx
    obtain ⟨h1, h2⟩ := hno
    have hafter : (checkButton s pt.1 pt.2).2.buttonState = 0 := by
      by_contra hne
      exact h1 ⟨hs, hne⟩
    have hres : (checkButton s pt.1 pt.2).1 = 0 := by
      rw [checkButton_result]
      have : ¬ (s.buttonState ≠ 0 ∧ (checkButton s pt.1 pt.2).2.buttonState = 0 ∧
          s.backlight_state = true) := fun h => h.1 hs
      rw [if_neg this]
    simp only [checkButtonRun, List.mem_cons] at hx
    rcases hx with hx | hx
    · rw [hx, hres]
    · exact ih _ hafter h2 x hx

/-- In a run of calls without a recognised release, at most one call returns 1. -/
theorem checkButtonRun_count (inputs : List (Bool × Int)) :
    ∀ s : State, noRelease s inputs → (checkButtonRun s inputs).1.count 1 ≤ 1 := by
  induction inputs with
  | nil => intro s _; simp [checkButtonRun]
  | cons pt rest ih =>
    intro s hno
    obtain ⟨h1, h2⟩ := hno
    simp only [checkButtonRun]
    by_cases hafter : (checkButton s pt.1 pt.2).2.buttonState = 0
    · have hz := checkButtonRun_held rest _ hafter h2
      have hc : (checkButtonRun (checkButton s pt.1 pt.2).2 rest).1.count 1 = 0 := by
        rw [List.count_eq_zero]
        intro hmem
        have := hz 1 hmem
        omega
      rw [List.count_cons, hc]
      split <;> omega
    · have hres : (checkButton s pt.1 pt.2).1 = 0 := by
        rw [checkButton_result]
        have : ¬ (s.buttonState ≠ 0 ∧ (checkButton s pt.1 pt.2).2.buttonState = 0 ∧
            s.backlight_state = true) := fun h => hafter h.2.1
        rw [if_neg this]
      rw [List.count_cons, hres]
      have := ih _ h2
      simp
      exact this

/-- C15: `checkButton` returns 0 or 1, and 1 only on a call that flips the
stable state from released (1, the only value other than 0 it takes) to
pressed (0); a call that leaves the stable state released, in particular a
release transition, returns 0; the stable state stays 0 or 1; after a
recognised press (stable state 0), every later call returns 0 for as long as
no release is recognised; and a run of calls without a recognised release
reports at most one event. -/
theorem C15_press_only_events :
    (∀ (s : State) (pin : Bool) (tick : Int),
      ((checkButton s pin tick).1 = 0 ∨ (checkButton s pin tick).1 = 1) ∧
      ((checkButton s pin tick).1 = 1 →
        s.buttonState ≠ 0 ∧ (checkButton s pin tick).2.buttonState = 0) ∧
      ((checkButton s pin tick).1 = 1 → s.buttonState = 0 ∨ s.buttonState = 1 →
        s.buttonState = 1 ∧ (checkButton s pin tick).2.buttonState = 0) ∧
      ((checkButton s pin tick).2.buttonState ≠ 0 → (checkButton s pin tick).1 = 0) ∧
      (s.buttonState = 0 ∨ s.buttonState = 1 →
        (checkButton s pin tick).2.buttonState = 0 ∨
        (checkButton s pin tick).2.buttonState = 1)) ∧
    (∀ (s : State) (inputs : List (Bool × Int)), s.buttonState = 0 → noRelease s inputs →
      ∀ x ∈ (checkButtonRun s inputs).1, x = 0) ∧
    (∀ (s : State) (inputs : List (Bool × Int)), noRelease s inputs →
      (checkButtonRun s inputs).1.count 1 ≤ 1) := by
  refine ⟨?_, fun s inputs => checkButtonRun_held inputs s,
    fun s inputs => checkButtonRun_count inputs s⟩
  intro s pin tick
  have hres := checkButton_result s pin tick
  have hb := checkButton_buttonState s pin tick
  by_cases hc : s.buttonState ≠ 0 ∧ (checkButton s pin tick).2.buttonState = 0 ∧
      s.backlight_state = true
  · rw [if_pos hc] at hres
    refine ⟨Or.inr hres, fun _ => ⟨hc.1, hc.2.1⟩, ?_, ?_, ?_⟩
    · intro _ h01
      rcases h01 with h | h
      · exact absurd h hc.1
      · exact ⟨h, hc.2.1⟩
    · intro hne; exact absurd hc.2.1 hne
    · intro _; exact Or.inl hc.2.1
  · rw [if_neg hc] at hres
    refine ⟨Or.inl hres, ?_, ?_, fun _ => hres, ?_⟩
    · intro h1; rw [hres] at h1; omega
    · intro h1; rw [hres] at h1; omega
    · intro h01
      by_cases hcond : (if pin = true then (1 : Int) else 0) = s.lastButtonState ∧
          (if pin = true then (1 : Int) else 0) ≠ s.buttonState ∧
          u32 (get_Time tick - s.lastDebounceTime) > DEBOUNCE_TIME
      · rw [hb, if_pos hcond]
        cases pin <;> simp
      · rw [hb, if_neg hcond]
        exact h01

/-- Witness of C15: the pin held low from a released stable state with the
backlight on gives the results 1, 0, 0. -/
theorem C15_press_only_events_witness :
    (checkButton sampleLit false 1000000).1 = 1 ∧
    (sampleLit.buttonState = 0 ∨ sampleLit.buttonState = 1) ∧
    (sampleLit.buttonState = 1 ∧ (checkButton sampleLit false 1000000).2.buttonState = 0) ∧
    noRelease sampleLit sampleHeld ∧
    (checkButtonRun sampleLit sampleHeld).1 = [1, 0, 0] ∧
    (checkButtonRun sampleLit sampleHeld).1.count 1 ≤ 1 ∧
    (checkButton sampleLit false 1000000).2.buttonState = 0 ∧
    noRelease (checkButton sampleLit false 1000000).2 [(false, 2000000), (false, 3000000)] ∧
    (∀ x ∈ (checkButtonRun (checkButton sampleLit false 1000000).2
        [(false, 2000000), (false, 3000000)]).1, x = 0) :=
  ⟨by decide, by decide,
   (C15_press_only_events.1 sampleLit false 1000000).2.2.1 (by decide) (by decide),
   ⟨by decide, by decide, by decide, trivial⟩,
   by decide,
   C15_press_only_events.2.2 sampleLit sampleHeld ⟨by decide, by decide, by decide, trivial⟩,
   by decide,
   ⟨by decide, by decide, trivial⟩,
   C15_press_only_events.2.1 (checkButton sampleLit false 1000000).2
     [(false, 2000000), (false, 3000000)] (by decide) ⟨by decide, by decide, trivial⟩⟩

/-! ## C16: the detent position -/

/-- Division rounding toward zero by 4 is monotone. -/
theorem tdiv_four_mono (x y : Int) (h : x ≤ y) : Int.tdiv x 4 ≤ Int.tdiv y 4 := by
  have key : ∀ z : Int, Int.tdiv z 4 = if 0 ≤ z then z / 4 else -((-z) / 4) := by
    intro z
    split
    · rename_i hz
      exact Int.tdiv_eq_ediv hz (by decide)
    · rename_i hz
      have hneg : Int.tdiv (-z) 4 = (-z) / 4 := Int.tdiv_eq_ediv (by omega) (by decide)
      have : Int.tdiv z 4 = -(Int.tdiv (-z) 4) := by
        rw [Int.neg_tdiv, Int.neg_neg]
      rw [this, hneg]
  rw [key x, key y]
  split <;> split <;> omega

/-- No loop iteration changes `initial_count`. -/
theorem loopIteration_initial_count (s : State) (inp : LoopInput) :
    (loopIteration s inp).initial_count = s.initial_count := by
  have he : ∀ (s : State) (p t : Int), (handleEncoder s p t).initial_count = s.initial_count := by
    intro s p t
    unfold handleEncoder
    simp only
    repeat' split
    all_goals simp only [updateMenu_initial_count]
  have hp : ∀ s : State, (periodicCheck s inp).initial_count = s.initial_count := by
    intro s
    unfold periodicCheck
    simp only
    have hr : (readSensors s inp.raw1).initial_count = s.initial_count := by
      rw [readSensors_frame]
    repeat' split
    all_goals simp only [updateMenu_initial_count]
    all_goals first | rfl | exact hr
  have hba : ∀ (s : State) (t : Int), (buttonAction s t).initial_count = s.initial_count := by
    intro s t
    unfold buttonAction
    simp only [updateMenu_initial_count]
    repeat' split
    all_goals rfl
  have hbs : ∀ s : State, (buttonStep s inp).initial_count = s.initial_count := by
    intro s
    unfold buttonStep
    simp only
    split
    · rw [hba, checkButton_frame]
    · rw [checkButton_frame]
  have hes : (encoderStep s inp).initial_count = s.initial_count := by
    unfold encoderStep
    simp only
    split
    · exact he _ _ _
    · rfl
  unfold loopIteration
  rw [hp, hbs, hes]

/-- C16: for every 16-bit value c of the encoder counter the detent position
the loop computes is (c - initial_count) / 4 with initial_count = 0x8fff and
the division of C (rounding toward zero); it is monotonic over the whole
16-bit range; `initial_count` is 0x8fff after start-up and no loop iteration
changes it; and after the encoder block of any iteration `oldPos` is the
position computed from the count read in that iteration, whatever was read
before. -/
theorem C16_detent_position :
    (∀ c : Int, 0 ≤ c → c < 65536 →
      detentPosition 0x8fff c = Int.tdiv (c - 0x8fff) 4) ∧
    (∀ c1 c2 : Int, 0 ≤ c1 → c1 ≤ c2 → c2 < 65536 →
      detentPosition 0x8fff c1 ≤ detentPosition 0x8fff c2) ∧
    (∀ (f : Flash) (tick : Int), (mainInit f tick).initial_count = 0x8fff) ∧
    (∀ (s : State) (inp : LoopInput), (loopIteration s inp).initial_count = s.initial_count) ∧
    (∀ (s : State) (inp : LoopInput),
      (encoderStep s inp).oldPos = detentPosition s.initial_count inp.count) ∧
    (∀ (s : State) (inp : LoopInput),
      encoderStep s inp =
        if s.oldPos ≠ detentPosition s.initial_count inp.count then
          { handleEncoder { s with lastInteractionTime := get_Time inp.tickEncoder }
              (detentPosition s.initial_count inp.count) inp.tickHandle with
            oldPos := detentPosition s.initial_count inp.count }
        else s) := by
  have hform : ∀ c : Int, 0 ≤ c → c < 65536 →
      detentPosition 0x8fff c = Int.tdiv (c - 0x8fff) 4 := by
    intro c h0 h1
    have h : i32 (u16 c - 0x8fff) = c - 0x8fff := by
      simp only [i32, u16]; omega
    simp only [detentPosition, h, PULSES_PER_DETENT]
  refine ⟨hform, ?_, ?_, loopIteration_initial_count, ?_, ?_⟩
  · intro c1 c2 h0 h12 h2
    rw [hform c1 h0 (by omega), hform c2 (by omega) h2]
    exact tdiv_four_mono _ _ (by omega)
  · intro f tick
    simp only [mainInit, updateMenu_initial_count]
    rfl
  · intro s inp
    unfold encoderStep
    simp only
    split
    · rfl
    · rename_i h
      simp only [ne_eq, not_not] at h
      exact h
  · intro s inp
    rfl

/-- Witness of C16: the counter values 0, 0x8ffc, 0x8fff, 0x9003 and 0xffff
give the positions -9215, 0, 0, 1 and 7168. -/
theorem C16_detent_position_witness :
    ((0 : Int) ≤ 0x9003 ∧ (0x9003 : Int) < 65536) ∧
    detentPosition 0x8fff 0x9003 = Int.tdiv (0x9003 - 0x8fff) 4 ∧
    ((0 : Int) ≤ 0x8ffc ∧ (0x8ffc : Int) ≤ 0x9003) ∧
    detentPosition 0x8fff 0 = -9215 ∧
    detentPosition 0x8fff 0x8ffc = 0 ∧
    detentPosition 0x8fff 0x8fff = 0 ∧
    detentPosition 0x8fff 0x9003 = 1 ∧
    detentPosition 0x8fff 0xffff = 7168 ∧
    detentPosition 0x8fff 0x8ffc ≤ detentPosition 0x8fff 0x9003 :=
  ⟨by decide, C16_detent_position.1 0x9003 (by decide) (by decide), by decide,
    by decide, by decide, by decide, by decide, by decide,
    C16_detent_position.2.1 0x8ffc 0x9003 (by decide) (by decide) (by decide)⟩

/-! ## C17: the order of the flash accesses -/

/-- The accesses of `FlashOptionData` and the lock bit after it, for any
controller. -/
theorem FlashOptionData_log (f : Flash) (data0 data1 : Int) :
    (FlashOptionData f data0 data1).log
      = f.log ++ saveLog (holdAt (ob32 f 0) (u32 (u8 data0 + u8 data1 * 65536)) (ob32 f 2)) ∧
    (FlashOptionData f data0 data1).lock = true := by
  obtain ⟨ob, lock, obwre, opter, optpg, ks, oks, busy, lat, log⟩ := f
  refine ⟨?_, ?_⟩ <;> simp only [FlashOptionData_mk, ob32]

/-- C17: the accesses `FlashOptionData` issues are, in this order: KEY1 then
KEY2 to KEYR, KEY1 then KEY2 to OBKEYR (unlock); OPTER and STRT set in CTLR,
a wait for the busy flag, OPTER cleared (erase); OPTPG set, then the six
half-word programs of indices 0 to 5, each followed by a wait for the busy
flag; OPTPG cleared and LOCK set. No half-word store is among the first nine
accesses, which hold the unlock and the erase; the stored half-words are the
saved `RDPR`, `USER`, the two data bytes, and the saved `WRPR0`, `WRPR1`; and
the controller is locked when the function returns. -/
theorem C17_save_protocol_order (f : Flash) (data0 data1 : Int) :
    let hold := holdAt (ob32 f 0) (u32 (u8 data0 + u8 data1 * 65536)) (ob32 f 2)
    (FlashOptionData f data0 data1).log =
      f.log ++
        [FlashOp.writeKEYR FLASH_KEY1, FlashOp.writeKEYR FLASH_KEY2,
         FlashOp.writeOBKEYR FLASH_KEY1, FlashOp.writeOBKEYR FLASH_KEY2,
         FlashOp.setCTLR CtlrBit.OPTER, FlashOp.setCTLR CtlrBit.STRT, FlashOp.waitBusy,
         FlashOp.resetCTLR CtlrBit.OPTER,
         FlashOp.setCTLR CtlrBit.OPTPG,
         FlashOp.writeOB 0 (hold 0), FlashOp.waitBusy,
         FlashOp.writeOB 1 (hold 1), FlashOp.waitBusy,
         FlashOp.writeOB 2 (hold 2), FlashOp.waitBusy,
         FlashOp.writeOB 3 (hold 3), FlashOp.waitBusy,
         FlashOp.writeOB 4 (hold 4), FlashOp.waitBusy,
         FlashOp.writeOB 5 (hold 5), FlashOp.waitBusy,
         FlashOp.resetCTLR CtlrBit.OPTPG,
         FlashOp.setCTLR CtlrBit.LOCK] ∧
    (((FlashOptionData f data0 data1).log.drop f.log.length).take 9).all
      (fun op => !op.isWriteOB) = true ∧
    hold 0 = u16 (f.ob 0) ∧ hold 1 = u16 (f.ob 1) ∧
    hold 2 = u8 data0 ∧ hold 3 = u8 data1 ∧
    hold 4 = u16 (f.ob 4) ∧ hold 5 = u16 (f.ob 5) ∧
    (FlashOptionData f data0 data1).lock = true := by
  intro hold
  obtain ⟨hlog, hlock⟩ := FlashOptionData_log f data0 data1
  have hl : (FlashOptionData f data0 data1).log =
      f.log ++
        [FlashOp.writeKEYR FLASH_KEY1, FlashOp.writeKEYR FLASH_KEY2,
         FlashOp.writeOBKEYR FLASH_KEY1, FlashOp.writeOBKEYR FLASH_KEY2,
         FlashOp.setCTLR CtlrBit.OPTER, FlashOp.setCTLR CtlrBit.STRT, FlashOp.waitBusy,
         FlashOp.resetCTLR CtlrBit.OPTER,
         FlashOp.setCTLR CtlrBit.OPTPG,
         FlashOp.writeOB 0 (hold 0), FlashOp.waitBusy,
         FlashOp.writeOB 1 (hold 1), FlashOp.waitBusy,
         FlashOp.writeOB 2 (hold 2), FlashOp.waitBusy,
         FlashOp.writeOB 3 (hold 3), FlashOp.waitBusy,
         FlashOp.writeOB 4 (hold 4), FlashOp.waitBusy,
         FlashOp.writeOB 5 (hold 5), FlashOp.waitBusy,
         FlashOp.resetCTLR CtlrBit.OPTPG,
         FlashOp.setCTLR CtlrBit.LOCK] := by
    rw [hlog]
    rfl
  refine ⟨hl, ?_, ?_, ?_, ?_, ?_, ?_, ?_, hlock⟩
  · rw [hl, List.drop_left]
    rfl
  · simp only [hold, holdAt, ob32, u16, Nat.reduceMul, Nat.reduceAdd]; omega
  · simp only [hold, holdAt, ob32, u16, Nat.reduceMul, Nat.reduceAdd]; omega
  · simp only [hold, holdAt, u8, u16, u32]; omega
  · simp only [hold, holdAt, u8, u16, u32]; omega
  · simp only [hold, holdAt, ob32, u16, Nat.reduceMul, Nat.reduceAdd]; omega
  · simp only [hold, holdAt, ob32, u16, Nat.reduceMul, Nat.reduceAdd]; omega

/-! ## C18: one navigation step in the menu -/

/-- The window rule of the redraw in InMenu, for a selection and a window top
that are non-negative `int` values. -/
theorem updateMenu_window (t : State) (hstate : t.currentState = MenuState.IN_MENU)
    (hsel : 0 ≤ t.selectedMenuItem ∧ t.selectedMenuItem ≤ 2147483647)
    (hoff : 0 ≤ t.menuOffset ∧ t.menuOffset ≤ 2147483643) :
    (t.selectedMenuItem < t.menuOffset → (updateMenu t).menuOffset = t.selectedMenuItem) ∧
    (t.selectedMenuItem ≥ t.menuOffset + MENU_DISPLAY_LINES →
      (updateMenu t).menuOffset = t.selectedMenuItem - MENU_DISPLAY_LINES + 1) ∧
    (t.menuOffset ≤ t.selectedMenuItem ∧ t.selectedMenuItem < t.menuOffset + MENU_DISPLAY_LINES →
      (updateMenu t).menuOffset = t.menuOffset) ∧
    (updateMenu t).currentState = MenuState.IN_MENU := by
  unfold updateMenu
  simp only [hstate, MENU_DISPLAY_LINES]
  have e1 : u32 t.selectedMenuItem = t.selectedMenuItem := by simp only [u32]; omega
  have e2 : u32 t.menuOffset = t.menuOffset := by simp only [u32]; omega
  have e3 : u32 (t.menuOffset + 4) = t.menuOffset + 4 := by simp only [u32]; omega
  have e4 : i32 t.selectedMenuItem = t.selectedMenuItem := by simp only [i32]; omega
  rw [e1, e2, e3, e4]
  refine ⟨?_, ?_, ?_, ?_⟩
  · intro h
    rw [if_pos h]
  · intro h
    have h1 : ¬ t.selectedMenuItem < t.menuOffset := by omega
    rw [if_neg h1, if_pos h]
    simp only [i32, u32]
    omega
  · intro h
    have h1 : ¬ t.selectedMenuItem < t.menuOffset := by omega
    have h2 : ¬ t.selectedMenuItem ≥ t.menuOffset + 4 := by omega
    rw [if_neg h1, if_neg h2]
  · repeat' split
    all_goals first | rfl | exact hstate

/-- C18: in InMenu with a selection in [0, 3] and a non-negative window top,
an encoder call with a new position sets the selection to
clamp(selection + s, 0, 3), where s is +1 if the position increased and -1 if
it decreased, whatever the size of the change; when the selection moved, the
redraw sets the window top to the selection if it is above the window, to
selection - 4 + 1 if it is below, and leaves it otherwise; when the selection
did not move there is no redraw and the window top is unchanged;
currentState, both temperatures and the units are unchanged. The window rule
is that of `updateMenu` in InMenu for every non-negative selection value and
window top. -/
theorem C18_menu_navigation_step :
    (∀ (s : State) (position tick : Int),
      s.currentState = MenuState.IN_MENU → position ≠ s.lastPosition →
      0 ≤ s.selectedMenuItem ∧ s.selectedMenuItem ≤ 3 →
      0 ≤ s.menuOffset ∧ s.menuOffset ≤ 2147483643 →
      (handleEncoder s position tick).selectedMenuItem
        = max 0 (min 3 (s.selectedMenuItem + (if position > s.lastPosition then 1 else -1))) ∧
      ((handleEncoder s position tick).selectedMenuItem ≠ s.selectedMenuItem →
        ((handleEncoder s position tick).selectedMenuItem < s.menuOffset →
          (handleEncoder s position tick).menuOffset
            = (handleEncoder s position tick).selectedMenuItem) ∧
        ((handleEncoder s position tick).selectedMenuItem ≥ s.menuOffset + 4 →
          (handleEncoder s position tick).menuOffset
            = (handleEncoder s position tick).selectedMenuItem - 4 + 1) ∧
        (s.menuOffset ≤ (handleEncoder s position tick).selectedMenuItem ∧
          (handleEncoder s position tick).selectedMenuItem < s.menuOffset + 4 →
          (handleEncoder s position tick).menuOffset = s.menuOffset)) ∧
      ((handleEncoder s position tick).selectedMenuItem = s.selectedMenuItem →
        (handleEncoder s position tick).menuOffset = s.menuOffset) ∧
      (handleEncoder s position tick).currentState = MenuState.IN_MENU ∧
      (handleEncoder s position tick).temperature1 = s.temperature1 ∧
      (handleEncoder s position tick).temperature2 = s.temperature2 ∧
      (handleEncoder s position tick).fahrenheit = s.fahrenheit ∧
      (handleEncoder s position tick).units0 = s.units0) ∧
    (∀ t : State, t.currentState = MenuState.IN_MENU →
      0 ≤ t.selectedMenuItem ∧ t.selectedMenuItem ≤ 2147483647 →
      0 ≤ t.menuOffset ∧ t.menuOffset ≤ 2147483643 →
      (t.selectedMenuItem < t.menuOffset → (updateMenu t).menuOffset = t.selectedMenuItem) ∧
      (t.selectedMenuItem ≥ t.menuOffset + 4 →
        (updateMenu t).menuOffset = t.selectedMenuItem - 4 + 1) ∧
      (t.menuOffset ≤ t.selectedMenuItem ∧ t.selectedMenuItem < t.menuOffset + 4 →
        (updateMenu t).menuOffset = t.menuOffset)) := by
  constructor
  · intro s position tick hstate hpos hsel hoff
    -- the step and the new item
    generalize hstep : (if position > s.lastPosition then (1 : Int) else -1) = step
    have hs1 : step = 1 ∨ step = -1 := by
      rw [← hstep]; split <;> simp
    have hnew : i8 (u32 (s.selectedMenuItem + step)) = s.selectedMenuItem + step := by
      simp only [i8, u32]; omega
    by_cases hin : 0 ≤ s.selectedMenuItem + step ∧ s.selectedMenuItem + step < 4
    · -- the selection moves and the menu is redrawn
      have hE : handleEncoder s position tick =
          updateMenu { s with lastInteractionTime := get_Time tick
                              lastPosition := position
                              selectedMenuItem := s.selectedMenuItem + step } := by
        unfold handleEncoder
        simp only [hstate, hstep, hnew, MENU_ITEMS_COUNT, ne_eq, hpos, not_false_eq_true,
          if_true, ge_iff_le, hin, and_self]
      have hw := updateMenu_window
        { s with lastInteractionTime := get_Time tick
                 lastPosition := position
                 selectedMenuItem := s.selectedMenuItem + step }
        hstate (by simp only; omega) hoff
      simp only [MENU_DISPLAY_LINES] at hw
      rw [hE]
      have hselE := updateMenu_selectedMenuItem
        { s with lastInteractionTime := get_Time tick
                 lastPosition := position
                 selectedMenuItem := s.selectedMenuItem + step }
      rw [hselE]
      refine ⟨by simp only; omega, fun _ => ⟨hw.1, hw.2.1, hw.2.2.1⟩, ?_, hw.2.2.2,
        updateMenu_temperature1 _, updateMenu_temperature2 _, updateMenu_fahrenheit _,
        updateMenu_units0 _⟩
      intro h
      simp only at h
      omega
    · -- the selection stays at the end of the list
      have hE : handleEncoder s position tick =
          { s with lastInteractionTime := get_Time tick, lastPosition := position } := by
        unfold handleEncoder
        simp only [hstate, hstep, hnew, MENU_ITEMS_COUNT, ne_eq, hpos, not_false_eq_true,
          if_true, ge_iff_le, hin, if_false]
      rw [hE]
      refine ⟨by simp only; omega, fun h => absurd rfl h, fun _ => rfl, hstate, rfl, rfl, rfl, rfl⟩
  · intro t hstate hsel hoff
    have hw := updateMenu_window t hstate hsel hoff
    simp only [MENU_DISPLAY_LINES] at hw
    exact ⟨hw.1, hw.2.1, hw.2.2.1⟩

/-- Witness of C18: from Units with the window starting at Units, a jump of
one detent backwards selects Temp2 and moves the window top to Temp2; and the
redraw with the selection value 7 below a window starting at 2 moves the
window top to 4. -/
theorem C18_menu_navigation_step_witness :
    (sampleScrolled.currentState = MenuState.IN_MENU ∧
      (0 : Int) ≠ sampleScrolled.lastPosition ∧
      (0 ≤ sampleScrolled.selectedMenuItem ∧ sampleScrolled.selectedMenuItem ≤ 3) ∧
      (0 ≤ sampleScrolled.menuOffset ∧ sampleScrolled.menuOffset ≤ 2147483643) ∧
      (handleEncoder sampleScrolled 0 0).selectedMenuItem = 1 ∧
      (handleEncoder sampleScrolled 0 0).selectedMenuItem < sampleScrolled.menuOffset ∧
      (handleEncoder sampleScrolled 0 0).menuOffset
        = (handleEncoder sampleScrolled 0 0).selectedMenuItem) ∧
    (sampleBelow.currentState = MenuState.IN_MENU ∧
      (0 ≤ sampleBelow.selectedMenuItem ∧ sampleBelow.selectedMenuItem ≤ 2147483647) ∧
      (0 ≤ sampleBelow.menuOffset ∧ sampleBelow.menuOffset ≤ 2147483643) ∧
      sampleBelow.selectedMenuItem ≥ sampleBelow.menuOffset + 4 ∧
      (updateMenu sampleBelow).menuOffset = sampleBelow.selectedMenuItem - 4 + 1) :=
  ⟨⟨by decide, by decide, by decide, by decide,
    (C18_menu_navigation_step.1 sampleScrolled 0 0 (by decide) (by decide) (by decide)
      (by decide)).1,
    by decide,
    (C18_menu_navigation_step.1 sampleScrolled 0 0 (by decide) (by decide) (by decide)
      (by decide)).2.1 (by decide) |>.1 (by decide)⟩,
   ⟨by decide, by decide, by decide, by decide,
    (C18_menu_navigation_step.2 sampleBelow (by decide) (by decide) (by decide)).2.1
      (by decide)⟩⟩

/-! ## C19: what a forwarded button press does, Exit apart -/

/-- C19: a forwarded button press takes Displaying to InMenu with Temp1
selected and menuOffset 0; takes InMenu with Temp1, Temp2 or Units selected to
Editing with the same selection; and takes Editing to InMenu with the same
selection; in all three cases temperature1, temperature2 and the units are
unchanged. -/
theorem C19_button_transitions :
    (∀ (s : State) (tick : Int), s.currentState = MenuState.DISPLAYING_DATA →
      (buttonAction s tick).currentState = MenuState.IN_MENU ∧
      (buttonAction s tick).selectedMenuItem = SET_TEMP1 ∧
      (buttonAction s tick).menuOffset = 0 ∧
      (buttonAction s tick).temperature1 = s.temperature1 ∧
      (buttonAction s tick).temperature2 = s.temperature2 ∧
      (buttonAction s tick).fahrenheit = s.fahrenheit ∧
      (buttonAction s tick).units0 = s.units0) ∧
    (∀ (s : State) (tick : Int), s.currentState = MenuState.IN_MENU →
      s.selectedMenuItem = SET_TEMP1 ∨ s.selectedMenuItem = SET_TEMP2 ∨
        s.selectedMenuItem = SET_UNITS →
      (buttonAction s tick).currentState = MenuState.EDITING_VALUE ∧
      (buttonAction s tick).selectedMenuItem = s.selectedMenuItem ∧
      (buttonAction s tick).temperature1 = s.temperature1 ∧
      (buttonAction s tick).temperature2 = s.temperature2 ∧
      (buttonAction s tick).fahrenheit = s.fahrenheit ∧
      (buttonAction s tick).units0 = s.units0) ∧
    (∀ (s : State) (tick : Int), s.currentState = MenuState.EDITING_VALUE →
      (buttonAction s tick).currentState = MenuState.IN_MENU ∧
      (buttonAction s tick).selectedMenuItem = s.selectedMenuItem ∧
      (buttonAction s tick).temperature1 = s.temperature1 ∧
      (buttonAction s tick).temperature2 = s.temperature2 ∧
      (buttonAction s tick).fahrenheit = s.fahrenheit ∧
      (buttonAction s tick).units0 = s.units0) := by
  refine ⟨?_, ?_, ?_⟩
  · intro s tick hstate
    have hE : buttonAction s tick =
        updateMenu { s with lastInteractionTime := get_Time tick
                            currentState := MenuState.IN_MENU
                            selectedMenuItem := SET_TEMP1
                            menuOffset := 0 } := by
      unfold buttonAction
      simp only [hstate]
    rw [hE]
    refine ⟨?_, updateMenu_selectedMenuItem _, ?_, updateMenu_temperature1 _,
      updateMenu_temperature2 _, updateMenu_fahrenheit _, updateMenu_units0 _⟩
    · simp [updateMenu, SET_TEMP1, u32, MENU_DISPLAY_LINES]
    · simp [updateMenu, SET_TEMP1, u32, MENU_DISPLAY_LINES]
  · intro s tick hstate hsel
    have hne : s.selectedMenuItem ≠ EXIT := by
      simp only [SET_TEMP1, SET_TEMP2, SET_UNITS] at hsel
      simp only [EXIT]
      omega
    have hE : buttonAction s tick =
        updateMenu { s with lastInteractionTime := get_Time tick
                            currentState := MenuState.EDITING_VALUE } := by
      unfold buttonAction
      simp only [hstate, hne, if_false]
    rw [hE]
    refine ⟨?_, updateMenu_selectedMenuItem _, updateMenu_temperature1 _,
      updateMenu_temperature2 _, updateMenu_fahrenheit _, updateMenu_units0 _⟩
    simp [updateMenu, hne]
  · intro s tick hstate
    have hE : buttonAction s tick =
        updateMenu { s with lastInteractionTime := get_Time tick
                            currentState := MenuState.IN_MENU } := by
      unfold buttonAction
      simp only [hstate]
    rw [hE]
    refine ⟨?_, updateMenu_selectedMenuItem _, updateMenu_temperature1 _,
      updateMenu_temperature2 _, updateMenu_fahrenheit _, updateMenu_units0 _⟩
    unfold updateMenu
    simp only
    repeat' split
    all_goals rfl

/-- Witness of C19: a press after start-up, a press on Temp1 in the menu, and
a press while editing Temp1. -/
theorem C19_button_transitions_witness :
    ((mainInit sampleFlash 0).currentState = MenuState.DISPLAYING_DATA ∧
      (buttonAction (mainInit sampleFlash 0) 0).currentState = MenuState.IN_MENU ∧
      (buttonAction (mainInit sampleFlash 0) 0).selectedMenuItem = SET_TEMP1 ∧
      (buttonAction (mainInit sampleFlash 0) 0).menuOffset = 0) ∧
    (sampleBrowsing.currentState = MenuState.IN_MENU ∧
      (sampleBrowsing.selectedMenuItem = SET_TEMP1 ∨ sampleBrowsing.selectedMenuItem = SET_TEMP2 ∨
        sampleBrowsing.selectedMenuItem = SET_UNITS) ∧
      (buttonAction sampleBrowsing 0).currentState = MenuState.EDITING_VALUE ∧
      (buttonAction sampleBrowsing 0).selectedMenuItem = sampleBrowsing.selectedMenuItem) ∧
    (sampleEditing.currentState = MenuState.EDITING_VALUE ∧
      (buttonAction sampleEditing 0).currentState = MenuState.IN_MENU ∧
      (buttonAction sampleEditing 0).selectedMenuItem = sampleEditing.selectedMenuItem) :=
  ⟨⟨by decide,
    (C19_button_transitions.1 (mainInit sampleFlash 0) 0 (by decide)).1,
    (C19_button_transitions.1 (mainInit sampleFlash 0) 0 (by decide)).2.1,
    (C19_button_transitions.1 (mainInit sampleFlash 0) 0 (by decide)).2.2.1⟩,
   ⟨by decide, by decide,
    (C19_button_transitions.2.1 sampleBrowsing 0 (by decide) (by decide)).1,
    (C19_button_transitions.2.1 sampleBrowsing 0 (by decide) (by decide)).2.1⟩,
   ⟨by decide,
    (C19_button_transitions.2.2 sampleEditing 0 (by decide)).1,
    (C19_button_transitions.2.2 sampleEditing 0 (by decide)).2.1⟩⟩

/-! ## C20: one edit step and what it leaves alone -/

/-- C20: in Editing on Temp1 with temperature1 in [0, 255], an encoder call
with a new position sets temperature1 to clamp(temperature1 + s, 0, 255), s
being +1 or -1 by the direction, and leaves temperature2, the units, the
sensor value, the selection and the menu state unchanged; the same holds for
Temp2 with the two thresholds exchanged; and an encoder call while editing
Units leaves both temperatures and the sensor value unchanged. -/
theorem C20_edit_step :
    (∀ (s : State) (position tick : Int),
      s.currentState = MenuState.EDITING_VALUE → s.selectedMenuItem = SET_TEMP1 →
      position ≠ s.lastPosition → 0 ≤ s.temperature1 ∧ s.temperature1 ≤ 255 →
      (handleEncoder s position tick).temperature1
        = max 0 (min 255 (s.temperature1 + (if position > s.lastPosition then 1 else -1))) ∧
      (handleEncoder s position tick).temperature2 = s.temperature2 ∧
      (handleEncoder s position tick).fahrenheit = s.fahrenheit ∧
      (handleEncoder s position tick).units0 = s.units0 ∧
      (handleEncoder s position tick).sensor1Value = s.sensor1Value ∧
      (handleEncoder s position tick).selectedMenuItem = s.selectedMenuItem ∧
      (handleEncoder s position tick).currentState = s.currentState) ∧
    (∀ (s : State) (position tick : Int),
      s.currentState = MenuState.EDITING_VALUE → s.selectedMenuItem = SET_TEMP2 →
      position ≠ s.lastPosition → 0 ≤ s.temperature2 ∧ s.temperature2 ≤ 255 →
      (handleEncoder s position tick).temperature2
        = max 0 (min 255 (s.temperature2 + (if position > s.lastPosition then 1 else -1))) ∧
      (handleEncoder s position tick).temperature1 = s.temperature1 ∧
      (handleEncoder s position tick).fahrenheit = s.fahrenheit ∧
      (handleEncoder s position tick).units0 = s.units0 ∧
      (handleEncoder s position tick).sensor1Value = s.sensor1Value ∧
      (handleEncoder s position tick).selectedMenuItem = s.selectedMenuItem ∧
      (handleEncoder s position tick).currentState = s.currentState) ∧
    (∀ (s : State) (position tick : Int),
      s.currentState = MenuState.EDITING_VALUE → s.selectedMenuItem = SET_UNITS →
      (handleEncoder s position tick).temperature1 = s.temperature1 ∧
      (handleEncoder s position tick).temperature2 = s.temperature2 ∧
      (handleEncoder s position tick).sensor1Value = s.sensor1Value) := by
  refine ⟨?_, ?_, ?_⟩
  · intro s position tick hstate hsel hpos ht
    unfold handleEncoder updateMenu
    simp only [hstate, hsel, SET_TEMP1, SET_TEMP2, SET_UNITS, EXIT]
    by_cases hgt : position > s.lastPosition
    · by_cases hlt : s.temperature1 < 255
      · simp [hpos, hgt, hlt]; omega
      · simp [hpos, hgt, hlt]; omega
    · by_cases hlt : s.temperature1 > 0
      · simp [hpos, hgt, hlt]; omega
      · simp [hpos, hgt, hlt]; omega
  · intro s position tick hstate hsel hpos ht
    unfold handleEncoder updateMenu
    simp only [hstate, hsel, SET_TEMP1, SET_TEMP2, SET_UNITS, EXIT]
    by_cases hgt : position > s.lastPosition
    · by_cases hlt : s.temperature2 < 255
      · simp [hpos, hgt, hlt]; omega
      · simp [hpos, hgt, hlt]; omega
    · by_cases hlt : s.temperature2 > 0
      · simp [hpos, hgt, hlt]; omega
      · simp [hpos, hgt, hlt]; omega
  · intro s position tick hstate hsel
    unfold handleEncoder updateMenu
    simp only [hstate, hsel, SET_TEMP1, SET_TEMP2, SET_UNITS, EXIT]
    by_cases hpos : position = s.lastPosition
    · simp [hpos]
    · by_cases hgt : position > s.lastPosition
      · simp [hpos, hgt]
      · simp [hpos, hgt]

/-- Witness of C20: one detent backwards while editing Temp1 at 255 gives 254,
one detent forwards while editing Temp2 at 0 gives 1, and a detent while
editing Units leaves the thresholds alone. -/
theorem C20_edit_step_witness :
    (sampleEditing.currentState = MenuState.EDITING_VALUE ∧
      sampleEditing.selectedMenuItem = SET_TEMP1 ∧
      (-1 : Int) ≠ sampleEditing.lastPosition ∧
      (0 ≤ sampleEditing.temperature1 ∧ sampleEditing.temperature1 ≤ 255) ∧
      (handleEncoder sampleEditing (-1) 0).temperature1 = 254 ∧
      (handleEncoder sampleEditing (-1) 0).temperature2 = sampleEditing.temperature2) ∧
    (sampleEditing2.currentState = MenuState.EDITING_VALUE ∧
      sampleEditing2.selectedMenuItem = SET_TEMP2 ∧
      (1 : Int) ≠ sampleEditing2.lastPosition ∧
      (0 ≤ sampleEditing2.temperature2 ∧ sampleEditing2.temperature2 ≤ 255) ∧
      (handleEncoder sampleEditing2 1 0).temperature2 = 1 ∧
      (handleEncoder sampleEditing2 1 0).temperature1 = sampleEditing2.temperature1) ∧
    (sampleUnits.currentState = MenuState.EDITING_VALUE ∧
      sampleUnits.selectedMenuItem = SET_UNITS ∧
      (handleEncoder sampleUnits 1 0).temperature1 = sampleUnits.temperature1 ∧
      (handleEncoder sampleUnits 1 0).temperature2 = sampleUnits.temperature2 ∧
      (handleEncoder sampleUnits 1 0).sensor1Value = sampleUnits.sensor1Value) :=
  ⟨⟨by decide, by decide, by decide, by decide,
    (C20_edit_step.1 sampleEditing (-1) 0 (by decide) (by decide) (by decide) (by decide)).1,
    (C20_edit_step.1 sampleEditing (-1) 0 (by decide) (by decide) (by decide) (by decide)).2.1⟩,
   ⟨by decide, by decide, by decide, by decide,
    (C20_edit_step.2.1 sampleEditing2 1 0 (by decide) (by decide) (by decide) (by decide)).1,
    (C20_edit_step.2.1 sampleEditing2 1 0 (by decide) (by decide) (by decide) (by decide)).2.1⟩,
   ⟨by decide, by decide, C20_edit_step.2.2 sampleUnits 1 0 (by decide) (by decide)⟩⟩

/-! ## C21: an encoder change and the backlight state -/

/-- `handleEncoder` never writes `backlight_state`. -/
theorem handleEncoder_backlight_state (s : State) (position tick : Int) :
    (handleEncoder s position tick).backlight_state = s.backlight_state := by
  unfold handleEncoder
  simp only
  repeat' split
  all_goals simp only [updateMenu_backlight_state]

set_option maxRecDepth 100000 in
/-- C21 does not hold on the code: `handleEncoder` never writes
backlight_state. After start-up at 3000 ms and eleven idle loop iterations the
eleventh periodic check has blanked the display (Displaying, backlight state
off); in the next iteration the encoder is found one detent further, the
change is processed by `handleEncoder`, and after that iteration the menu is
in InMenu while the backlight state is still off, a reachable state in which
the menu is open with the backlight state off. -/
theorem C21_encoder_leaves_backlight_state_off :
    (∀ (s : State) (position tick : Int),
      (handleEncoder s position tick).backlight_state = s.backlight_state) ∧
    sampleBlanked = runLoop (mainInit sampleFlash 25000000) elevenIdleChecks ∧
    sampleBlanked.currentState = MenuState.DISPLAYING_DATA ∧
    sampleBlanked.backlight_state = false ∧
    sampleBlanked.oldPos
      ≠ detentPosition sampleBlanked.initial_count (turnedInput 5000000).count ∧
    (loopIteration sampleBlanked (turnedInput 5000000)).currentState = MenuState.IN_MENU ∧
    (loopIteration sampleBlanked (turnedInput 5000000)).backlight_state = false :=
  ⟨handleEncoder_backlight_state, rfl, by decide, by decide, by decide, by decide, by decide⟩

/-! ## C22: the range of the millisecond clock -/

/-- The value of `get_Time` is between 0 and 4294, whatever the counter. -/
theorem get_Time_range (c : Int) : 0 ≤ get_Time c ∧ get_Time c ≤ 4294 := by
  simp only [get_Time, u32, TICK_NS]
  omega

/-- C22: for every 32-bit SysTick count c, `get_Time` returns
((c * 120) mod 2^32) / 10^6 rounded down, a value of at most 4294; hence for
any two clock readings the unsigned 32-bit difference of the first and the
second exceeds 10 000 if and only if the first is smaller than the second. -/
theorem C22_clock_range :
    (∀ c : Int, 0 ≤ c → c < 4294967296 →
      get_Time c = (c * 120 % 4294967296) / 1000000 ∧
      0 ≤ get_Time c ∧ get_Time c ≤ 4294) ∧
    (∀ c1 c2 : Int,
      u32 (get_Time c1 - get_Time c2) > 10000 ↔ get_Time c1 < get_Time c2) := by
  constructor
  · intro c h0 h1
    refine ⟨?_, get_Time_range c⟩
    have hu : c % 4294967296 = c := by omega
    simp only [get_Time, TICK_NS, u32, hu]
  · intro c1 c2
    have r1 := get_Time_range c1
    have r2 := get_Time_range c2
    simp only [u32]
    omega

/-- Witness of C22: the largest count gives 4294, the largest clock value. -/
theorem C22_clock_range_witness :
    ((0 : Int) ≤ 4294967295 ∧ (4294967295 : Int) < 4294967296) ∧
    get_Time 4294967295 = (4294967295 * 120 % 4294967296) / 1000000 ∧
    get_Time 4294967295 = 4294 :=
  ⟨by decide, (C22_clock_range.1 4294967295 (by decide) (by decide)).1, by decide⟩

/-! ## C23: the reading line and its buffer -/

/-- The digit accumulator of `Nat.toDigitsCore` never shrinks. -/
theorem toDigitsCore_length_ge (fuel : Nat) :
    ∀ (n : Nat) (ds : List Char), ds.length ≤ (Nat.toDigitsCore 10 fuel n ds).length := by
  induction fuel with
  | zero => intro n ds; simp [Nat.toDigitsCore]
  | succ fuel ih =>
    intro n ds
    simp only [Nat.toDigitsCore]
    split
    · simp
    · have := ih (n / 10) (Nat.digitChar (n % 10) :: ds)
      simp only [List.length_cons] at this
      omega

/-- A value of at least `10 ^ e` gets at least `e + 1` digits, fuel permitting. -/
theorem toDigitsCore_length_lower (e : Nat) :
    ∀ (fuel n : Nat) (ds : List Char), 10 ^ e ≤ n → e < fuel →
      ds.length + e + 1 ≤ (Nat.toDigitsCore 10 fuel n ds).length := by
  induction e with
  | zero =>
    intro fuel n ds _ hfuel
    obtain ⟨f, rfl⟩ : ∃ f, fuel = f + 1 := ⟨fuel - 1, by omega⟩
    rw [Nat.toDigitsCore]
    split
    · simp
    · have := toDigitsCore_length_ge f (n / 10) (Nat.digitChar (n % 10) :: ds)
      simp only [List.length_cons] at this
      omega
  | succ e ih =>
    intro fuel n ds hn hfuel
    obtain ⟨f, rfl⟩ : ∃ f, fuel = f + 1 := ⟨fuel - 1, by omega⟩
    have hpow : 10 ^ (e + 1) = 10 * 10 ^ e := by rw [Nat.pow_succ, Nat.mul_comm]
    have hpos : 0 < 10 ^ e := Nat.pow_pos (by decide)
    have hdiv : 10 ^ e ≤ n / 10 := by
      rw [Nat.le_div_iff_mul_le (by decide)]
      omega
    have hne : ¬ n / 10 = 0 := by omega
    rw [Nat.toDigitsCore]
    simp only [hne, if_false]
    have := ih f (n / 10) (Nat.digitChar (n % 10) :: ds) hdiv (by omega)
    simp only [List.length_cons] at this
    omega

/-- A value of at least 100 has at least three decimal digits. -/
theorem toDigits_length_ge_three (v : Nat) (h : 100 ≤ v) : 3 ≤ (Nat.toDigits 10 v).length := by
  have := toDigitsCore_length_lower 2 (v + 1) v [] (by simpa using h) (by omega)
  simpa [Nat.toDigits] using this

/-- A value of at most 99 has at most two decimal digits. -/
theorem toDigits_length_le_two (v : Nat) (h : v ≤ 99) : (Nat.toDigits 10 v).length ≤ 2 :=
  Nat.toDigitsCore_length 10 (by decide) (v + 1) v 2 (by omega) (by decide)

/-- C23 does not hold on the code: the reading line needs 14 bytes plus the
digits of the value, so it fits the 16 bytes of `temp_buf` only for values up
to 99. The raw sensor word 0x04C0 (38 degrees Celsius) gives the value 100 in
Fahrenheit, for which `sprintf` stores the 16 characters of
"Reading:100F    " and the NUL, 17 bytes; the largest value 3716 takes 18
bytes; every value from 100 on overflows the buffer, for either letter. -/
theorem C23_reading_line_overflows :
    (readSensors (mainInit sampleFlash 0) 0x04C0).sensor1Value = 100 ∧
    readingLine 100 'F' = "Reading:100F    ".toList ∧
    readingLineBytesOf (readSensors (mainInit sampleFlash 0) 0x04C0) = 17 ∧
    TEMP_BUF_SIZE < readingLineBytesOf (readSensors (mainInit sampleFlash 0) 0x04C0) ∧
    readingLineBytes 3716 'F' = 18 ∧
    readingLineBytes 3716 'C' = 18 ∧
    (∀ (v : Nat) (unit : Char), 100 ≤ v → TEMP_BUF_SIZE < readingLineBytes v unit) ∧
    (∀ (v : Nat) (unit : Char), v ≤ 99 → readingLineBytes v unit ≤ TEMP_BUF_SIZE) := by
  refine ⟨by decide, by decide, by decide, by decide, by decide, by decide, ?_, ?_⟩
  · intro v unit h
    have := toDigits_length_ge_three v h
    simp only [TEMP_BUF_SIZE, readingLineBytes, readingLine, List.length_append,
      List.length_cons, List.length_nil, String.toList]
    simp
    omega
  · intro v unit h
    have := toDigits_length_le_two v h
    simp only [TEMP_BUF_SIZE, readingLineBytes, readingLine, List.length_append,
      List.length_cons, List.length_nil, String.toList]
    simp
    omega

/-! ## C24: Editing never targets Exit -/

/-- `handleEncoder` is its body without the redraw, followed by `updateMenu`
where it calls it. -/
theorem handleEncoder_eq_core (s : State) (position tick : Int) :
    handleEncoder s position tick =
      if (handleEncoderCore s position tick).2 = true then
        updateMenu (handleEncoderCore s position tick).1
      else (handleEncoderCore s position tick).1 := by
  unfold handleEncoder handleEncoderCore
  simp only
  by_cases hp : position = s.lastPosition
  · simp only [hp, ne_eq, not_true_eq_false, if_false, Bool.false_eq_true]
  · simp only [ne_eq, hp, not_false_eq_true, if_true]
    cases hcs : s.currentState
    · simp only [if_true]
    · simp only
      generalize (if position > s.lastPosition then (1 : Int) else -1) = delta
      by_cases hc : i8 (u32 (s.selectedMenuItem + delta)) ≥ 0 ∧
          i8 (u32 (s.selectedMenuItem + delta)) < MENU_ITEMS_COUNT
      · rw [if_pos hc, if_pos hc, if_pos rfl]
      · rw [if_neg hc, if_neg hc, if_neg (fun h => Bool.noConfusion h)]
    · simp only [if_true]

/-- A forwarded button press is its body without the redraw, followed by
`updateMenu`. -/
theorem buttonAction_eq_core (s : State) (tick : Int) :
    buttonAction s tick = updateMenu (buttonActionCore s tick) := by
  unfold buttonAction buttonActionCore
  rfl

/-- `updateMenu` does not lead into Editing on Exit. -/
theorem updateMenu_noExit (t : State) (h : ¬ editingExitCase t) :
    ¬ editingExitCase (updateMenu t) := by
  unfold editingExitCase at *
  rw [updateMenu_selectedMenuItem]
  intro hc
  apply h
  refine ⟨?_, hc.2⟩
  have hcs := hc.1
  unfold updateMenu at hcs
  revert hcs
  repeat' split
  all_goals simp_all

/-- The redraw of `handleEncoder` is never called in Editing on Exit, unless
the state before the call already is Editing on Exit. -/
theorem handleEncoderCore_noExit (s : State) (position tick : Int)
    (h : ¬ editingExitCase s) : ¬ editingExitCase (handleEncoderCore s position tick).1 := by
  unfold editingExitCase at *
  unfold handleEncoderCore
  simp only
  repeat' split
  all_goals simp_all [EXIT, SET_TEMP1, SET_TEMP2, SET_UNITS]

/-- The redraw of a forwarded button press is never called in Editing on Exit. -/
theorem buttonActionCore_noExit (s : State) (tick : Int) :
    ¬ editingExitCase (buttonActionCore s tick) := by
  unfold editingExitCase buttonActionCore
  simp only
  repeat' split
  all_goals simp_all

/-- `handleEncoder` does not lead into Editing on Exit. -/
theorem handleEncoder_noExit (s : State) (position tick : Int) (h : ¬ editingExitCase s) :
    ¬ editingExitCase (handleEncoder s position tick) := by
  rw [handleEncoder_eq_core]
  split
  · exact updateMenu_noExit _ (handleEncoderCore_noExit s position tick h)
  · exact handleEncoderCore_noExit s position tick h

/-- A forwarded button press does not lead into Editing on Exit. -/
theorem buttonAction_noExit (s : State) (tick : Int) :
    ¬ editingExitCase (buttonAction s tick) := by
  rw [buttonAction_eq_core]
  exact updateMenu_noExit _ (buttonActionCore_noExit s tick)

/-- A sequence of user events does not lead into Editing on Exit. -/
theorem runEvents_noExit (es : List UserEvent) :
    ∀ s : State, ¬ editingExitCase s → ¬ editingExitCase (runEvents s es) := by
  induction es with
  | nil => intro s h; exact h
  | cons e es ih =>
    intro s h
    cases e with
    | encoder position tick => exact ih _ (handleEncoder_noExit s position tick h)
    | button tick => exact ih _ (buttonAction_noExit s tick)

/-- A whole loop iteration does not lead into Editing on Exit. -/
theorem loopIteration_noExit (s : State) (inp : LoopInput) (h : ¬ editingExitCase s) :
    ¬ editingExitCase (loopIteration s inp) := by
  have hes : ¬ editingExitCase (encoderStep s inp) := by
    unfold encoderStep
    simp only
    split
    · have := handleEncoder_noExit { s with lastInteractionTime := get_Time inp.tickEncoder }
        (Int.tdiv (i32 (u16 inp.count - s.initial_count)) PULSES_PER_DETENT) inp.tickHandle h
      exact this
    · exact h
  have hcb : ∀ t : State, ¬ editingExitCase t →
      ¬ editingExitCase (checkButton t inp.pin inp.tickCheck).2 := by
    intro t ht
    rw [checkButton_frame]
    exact ht
  have hbs : ¬ editingExitCase (buttonStep (encoderStep s inp) inp) := by
    unfold buttonStep
    simp only
    split
    · exact buttonAction_noExit _ _
    · exact hcb _ hes
  have hpc : ∀ t : State, ¬ editingExitCase t → ¬ editingExitCase (periodicCheck t inp) := by
    intro t ht
    have hr : ¬ editingExitCase (readSensors t inp.raw1) := by
      rw [readSensors_frame]; exact ht
    unfold periodicCheck
    simp only
    repeat' split
    all_goals
      first
      | exact ht
      | exact hr
      | (apply updateMenu_noExit; exact hr)
  exact hpc _ hbs

/-- C24: in every state reached from a state with Temp1 selected and
menuOffset 0 (the initial state is one) by encoder calls and forwarded button
presses, currentState = Editing implies that the selection is Temp1, Temp2 or
Units; and whatever event comes next, the state on which that event calls
`updateMenu` is not Editing with Exit selected, so the EXIT case of the
Editing branch of `updateMenu` is not executed. -/
theorem C24_editing_never_on_exit (s0 : State)
    (hsel : s0.selectedMenuItem = SET_TEMP1) (hoff : s0.menuOffset = 0)
    (es : List UserEvent) :
    ((runEvents s0 es).currentState = MenuState.EDITING_VALUE →
      (runEvents s0 es).selectedMenuItem = SET_TEMP1 ∨
      (runEvents s0 es).selectedMenuItem = SET_TEMP2 ∨
      (runEvents s0 es).selectedMenuItem = SET_UNITS) ∧
    (∀ position tick : Int,
      handleEncoder (runEvents s0 es) position tick =
        (if (handleEncoderCore (runEvents s0 es) position tick).2 = true then
          updateMenu (handleEncoderCore (runEvents s0 es) position tick).1
        else (handleEncoderCore (runEvents s0 es) position tick).1) ∧
      ¬ editingExitCase (handleEncoderCore (runEvents s0 es) position tick).1) ∧
    (∀ tick : Int,
      buttonAction (runEvents s0 es) tick
        = updateMenu (buttonActionCore (runEvents s0 es) tick) ∧
      ¬ editingExitCase (buttonActionCore (runEvents s0 es) tick)) := by
  have h0 : ¬ editingExitCase s0 := by
    intro h
    have := h.2
    rw [hsel] at this
    simp [SET_TEMP1, EXIT] at this
  have hinv0 : MenuInv s0 :=
    ⟨by rw [hsel]; simp [SET_TEMP1], by rw [hsel]; simp [SET_TEMP1], hoff⟩
  have hJ := runEvents_noExit es s0 h0
  obtain ⟨i0, i3, _⟩ := runEvents_inv es s0 hinv0
  refine ⟨?_, ?_, ?_⟩
  · intro hed
    have hne : (runEvents s0 es).selectedMenuItem ≠ EXIT := fun hx => hJ ⟨hed, hx⟩
    simp only [EXIT] at hne
    simp only [SET_TEMP1, SET_TEMP2, SET_UNITS]
    omega
  · intro position tick
    exact ⟨handleEncoder_eq_core _ _ _, handleEncoderCore_noExit _ _ _ hJ⟩
  · intro tick
    exact ⟨buttonAction_eq_core _ _, buttonActionCore_noExit _ _⟩

/-- Witness of C24: after start-up, one encoder step followed by one press
ends in Editing, on one of the three editable items. -/
theorem C24_editing_never_on_exit_witness :
    (mainInit sampleFlash 0).selectedMenuItem = SET_TEMP1 ∧
    (mainInit sampleFlash 0).menuOffset = 0 ∧
    (runEvents (mainInit sampleFlash 0) [UserEvent.encoder 1 10, UserEvent.button 20]).currentState
      = MenuState.EDITING_VALUE ∧
    ((runEvents (mainInit sampleFlash 0)
        [UserEvent.encoder 1 10, UserEvent.button 20]).selectedMenuItem = SET_TEMP1 ∨
      (runEvents (mainInit sampleFlash 0)
        [UserEvent.encoder 1 10, UserEvent.button 20]).selectedMenuItem = SET_TEMP2 ∨
      (runEvents (mainInit sampleFlash 0)
        [UserEvent.encoder 1 10, UserEvent.button 20]).selectedMenuItem = SET_UNITS) :=
  ⟨rfl, rfl, by decide,
    (C24_editing_never_on_exit (mainInit sampleFlash 0) rfl rfl
      [UserEvent.encoder 1 10, UserEvent.button 20]).1 (by decide)⟩

/-! ## C25: the frame buffer of `LCD_Send` -/

/-- C25 does not hold on the code: `LCD_Send` declares `uint8_t buf[3]`, whose
valid indices are 0, 1 and 2, stores its fourth frame byte at index 3 and
hands four bytes of the buffer to `i2c_write`, for every data byte and mode;
for the data byte 0x41 in data mode the four stores are 0x4D, 0x49, 0x1D and
0x19 at the indices 0 to 3. The first three stores are inside the buffer. -/
theorem C25_LCD_Send_leaves_its_buffer :
    LCD_Send 0x41 1 = { stores := [(0, 0x4D), (1, 0x49), (2, 0x1D), (3, 0x19)], sent := 4 } ∧
    (∀ data mode : Nat, ∃ v : Nat,
      (LCD_Send data mode).stores.get? 3 = some (3, v) ∧ ¬ 3 < LCD_SEND_BUF_LEN) ∧
    (∀ data mode : Nat, (LCD_Send data mode).stores.length = 4) ∧
    (∀ data mode : Nat, ∀ st ∈ (LCD_Send data mode).stores.take 3, st.1 < LCD_SEND_BUF_LEN) ∧
    (∀ data mode : Nat, (LCD_Send data mode).sent = 4 ∧
      LCD_SEND_BUF_LEN < (LCD_Send data mode).sent) := by
  refine ⟨by decide, ?_, ?_, ?_, ?_⟩
  · intro data mode
    exact ⟨_, rfl, by decide⟩
  · intro data mode
    rfl
  · intro data mode st hst
    simp only [LCD_Send, List.take, List.mem_cons, List.mem_nil_iff, or_false] at hst
    rcases hst with h | h | h <;> rw [h] <;> simp [LCD_SEND_BUF_LEN]
  · intro data mode
    exact ⟨rfl, by simp [LCD_Send, LCD_SEND_BUF_LEN]⟩

end FanThermostat
